import Mathlib

/-!
Godwoken generator gateway and Simple-UDT ledger

A shallow embedding of `c/generator_utils.h` (the syscall gateway and
`gw_context_init`) and `c/sudt_utils.h` (the SUDT ledger: balance lookup and
transfer), followed by theorems about them.

Conventions of the embedding

* C `int` return codes are `Int`; `uint32_t`, `uint128_t` and bytes are `Nat`,
  reduced modulo `2 ^ w` where the C arithmetic can wrap.
* A byte buffer is a `List Nat`; `buf[i]` is `buf.getD i 0`.
* Every C function that talks to the host takes the host state as its last
  argument and returns the new host state as the last component of its result.
  Out-parameters are passed in and returned.
* `ctx->sys_load`, `ctx->sys_store`, `ctx->sys_log` and
  `ctx->sys_get_script_hash_by_account_id` are the functions that
  `gw_context_init` binds into the table: `sys_load`, `sys_store`, `sys_log`
  and `sys_get_script_hash_by_account_id` of `generator_utils.h`.
-/

namespace Godwoken

/-- A byte buffer. -/
abbrev Bytes := List Nat

/-! ## The host behind the raw syscall boundary -/

/-- The raw syscalls the two files issue, with the arguments they pass. -/
inductive Syscall where
  /-- Syscall `GW_SYS_STORE` (3051): raw key and value. -/
  | STORE (raw_key value : Bytes)
  /-- Syscall `GW_SYS_LOAD` (3052): raw key. -/
  | LOAD (raw_key : Bytes)
  /-- Syscall `GW_SYS_LOAD_TRANSACTION` (4051): capacity of the buffer. -/
  | LOAD_TRANSACTION (len : Nat)
  /-- Syscall `GW_SYS_LOAD_BLOCKINFO` (4052): capacity of the buffer. -/
  | LOAD_BLOCKINFO (len : Nat)
  /-- Syscall `GW_SYS_LOAD_SCRIPT_HASH_BY_ACCOUNT_ID` (4053): account id. -/
  | LOAD_SCRIPT_HASH_BY_ACCOUNT_ID (account_id : Nat)
  /-- Syscall `GW_SYS_LOG` (4061): account id, service flag, data length, data. -/
  | LOG (account_id service_flag data_length : Nat) (data : Bytes)
  deriving DecidableEq, Repr

/-- One entry of the host call record: the call and the code the host returned. -/
structure Event where
  call : Syscall
  ret : Int
  deriving DecidableEq, Repr

/-- Modelled from the spec: the host behind the `syscall` boundary (the
key-value store, the account table and the log are host-provided and are not
part of the two files). The host holds a script hash per account id, a value per
raw storage key, the serialized transaction and block info, and decides the
return code of every call: `fault c` is the code it answers the call `c` with,
0 for success, and depends on the call alone. `trace` records every call issued
so far with the code returned, oldest first. -/
structure Host where
  script_hash : Nat → Bytes
  kv : Bytes → Bytes
  l2transaction : Bytes
  block_info : Bytes
  fault : Syscall → Int
  trace : List Event

/-- The host notes a call and the code it answers with. -/
def Host.emit (h : Host) (c : Syscall) : Host :=
  { h with trace := h.trace ++ [⟨c, h.fault c⟩] }

/-- The host writes `value` under `raw_key`. -/
def Host.put (h : Host) (raw_key value : Bytes) : Host :=
  { h with kv := fun k => if k = raw_key then value else h.kv k }

/-- Modelled from the spec: `syscall(n, ...)` for the calls that fill at most one
caller buffer `out`. A call the host fails leaves the buffer and the storage as
they were; a successful `GW_SYS_STORE` writes the value, a successful
`GW_SYS_LOAD` or script-hash lookup fills the buffer from the host's tables. -/
def syscall (c : Syscall) (out : Bytes) (h : Host) : Int × Bytes × Host :=
  if h.fault c ≠ 0 then (h.fault c, out, h.emit c)
  else
    match c with
    | .STORE raw_key value => (0, out, (h.emit c).put raw_key value)
    | .LOAD raw_key => (0, h.kv raw_key, h.emit c)
    | .LOAD_SCRIPT_HASH_BY_ACCOUNT_ID account_id => (0, h.script_hash account_id, h.emit c)
    | .LOG _ _ _ _ => (0, out, h.emit c)
    | .LOAD_TRANSACTION _ => (0, out, h.emit c)
    | .LOAD_BLOCKINFO _ => (0, out, h.emit c)

/-- The buffer `buf` after the host copied `data` into its first `cap` bytes
(a partial load: at most `cap` bytes are written). -/
def fill (buf data : Bytes) (cap : Nat) : Bytes :=
  data.take cap ++ buf.drop (min cap data.length)

/-- Modelled from the spec: `syscall(n, addr, &inner_len, ...)` for the two
length-reporting loads. On success the host copies at most `len` bytes into the
buffer and reports the full length of the record it holds. -/
def syscall_len (c : Syscall) (data addr : Bytes) (len : Nat) (h : Host) :
    Int × Bytes × Nat × Host :=
  if h.fault c ≠ 0 then (h.fault c, addr, len, h.emit c)
  else (0, fill addr data len, data.length, h.emit c)

/-! ## Declarations the two files take from absent headers -/

/-- Modelled from the spec: `mol_seg_t` (a pointer with a size); `ptr` is the
content of the buffer the pointer refers to. -/
structure mol_seg_t where
  ptr : Bytes
  size : Nat
  deriving DecidableEq, Repr

/-- Modelled from the spec: `gw_transaction_context_t` (`gw_def.h` is absent):
sender and receiver account ids and the call arguments. -/
structure gw_transaction_context_t where
  from_id : Nat
  to_id : Nat
  args : Bytes
  deriving DecidableEq, Repr

/-- Modelled from the spec: `gw_block_info_t` (`gw_def.h` is absent): block
number, timestamp and block producer id. -/
structure gw_block_info_t where
  number : Nat
  timestamp : Nat
  block_producer_id : Nat
  deriving DecidableEq, Repr

/-- The constants and helpers of `common.h` and `gw_def.h` that the two files
use and that are not part of them; they are parameters of the embedding. -/
structure Env where
  GW_ERROR_INVALID_DATA : Int
  GW_ERROR_INVALID_CONTEXT : Int
  GW_ERROR_ACCOUNT_NOT_FOUND : Int
  GW_MAX_L2TX_SIZE : Nat
  sizeof_MolDefault_BlockInfo : Nat
  GW_LOG_SUDT_OPERATION : Nat
  gw_build_account_key : Nat → Bytes → Bytes
  gw_build_nonce_key : Nat → Bytes
  gw_parse_transaction_context : mol_seg_t → Int × gw_transaction_context_t
  gw_parse_block_info : mol_seg_t → Int × gw_block_info_t

/-- The data part of `gw_context_t`. The function-pointer fields are bound by
`gw_context_init` to the gateway functions below, which the embedding calls
directly. A `gw_context_t *` is an `Option gw_context_t`, `none` being `NULL`. -/
structure gw_context_t where
  transaction_context : gw_transaction_context_t
  block_info : gw_block_info_t
  deriving DecidableEq, Repr

/-! ## generator_utils.h -/

/-- A 32-byte buffer: `uint8_t buf[32] = {0}`. A buffer declared without an
initialiser is given the same content; the code never reads it before the host
has filled it. -/
def zero32 : Bytes := List.replicate 32 0

/-- Source function `sys_get_script_hash_by_account_id`. -/
def sys_get_script_hash_by_account_id (account_id : Nat) (script_hash : Bytes) (h : Host) :
    Int × Bytes × Host :=
  syscall (.LOAD_SCRIPT_HASH_BY_ACCOUNT_ID account_id) script_hash h

/-- Source function `_ensure_account_exists`: the loop over the 32 bytes returns 0 at the first
non-zero byte. -/
def _ensure_account_exists (E : Env) (account_id : Nat) (h : Host) : Int × Host :=
  let r := sys_get_script_hash_by_account_id account_id zero32 h
  if r.1 ≠ 0 then (r.1, r.2.2)
  else if (List.range 32).any (fun i => r.2.1.getD i 0 != 0) then (0, r.2.2)
  else (E.GW_ERROR_ACCOUNT_NOT_FOUND, r.2.2)

/-- Source function `sys_load`; the result is the return code, the value buffer and the host. -/
def sys_load (E : Env) (ctx : Option gw_context_t) (account_id : Nat) (key value : Bytes)
    (h : Host) : Int × Bytes × Host :=
  match ctx with
  | none => (E.GW_ERROR_INVALID_CONTEXT, value, h)
  | some _ =>
    let r := _ensure_account_exists E account_id h
    if r.1 ≠ 0 then (r.1, value, r.2)
    else syscall (.LOAD (E.gw_build_account_key account_id key)) value r.2

/-- Source function `sys_store`. -/
def sys_store (E : Env) (ctx : Option gw_context_t) (account_id : Nat) (key value : Bytes)
    (h : Host) : Int × Host :=
  match ctx with
  | none => (E.GW_ERROR_INVALID_CONTEXT, h)
  | some _ =>
    let r := _ensure_account_exists E account_id h
    if r.1 ≠ 0 then (r.1, r.2)
    else
      let s := syscall (.STORE (E.gw_build_account_key account_id key) value) [] r.2
      (s.1, s.2.2)

/-- Source function `sys_load_nonce`. -/
def sys_load_nonce (E : Env) (ctx : Option gw_context_t) (account_id : Nat) (value : Bytes)
    (h : Host) : Int × Bytes × Host :=
  match ctx with
  | none => (E.GW_ERROR_INVALID_CONTEXT, value, h)
  | some _ =>
    let r := _ensure_account_exists E account_id h
    if r.1 ≠ 0 then (r.1, value, r.2)
    else syscall (.LOAD (E.gw_build_nonce_key account_id)) value r.2

/-- Source function `_sys_load_l2transaction`. -/
def _sys_load_l2transaction (addr : Bytes) (len : Nat) (h : Host) : Int × Bytes × Nat × Host :=
  syscall_len (.LOAD_TRANSACTION len) h.l2transaction addr len h

/-- Source function `_sys_load_block_info`. -/
def _sys_load_block_info (addr : Bytes) (len : Nat) (h : Host) : Int × Bytes × Nat × Host :=
  syscall_len (.LOAD_BLOCKINFO len) h.block_info addr len h

/-- Source function `sys_log`. -/
def sys_log (E : Env) (ctx : Option gw_context_t) (account_id service_flag data_length : Nat)
    (data : Bytes) (h : Host) : Int × Host :=
  match ctx with
  | none => (E.GW_ERROR_INVALID_CONTEXT, h)
  | some _ =>
    let r := _ensure_account_exists E account_id h
    if r.1 ≠ 0 then (r.1, r.2)
    else
      let s := syscall (.LOG account_id service_flag data_length data) [] r.2
      (s.1, s.2.2)

/-- Source function `gw_context_init`, from "initialize context" on (the first part binds the
function table). The result is the return code, the context and the host. -/
def gw_context_init (E : Env) (ctx : gw_context_t) (h : Host) : Int × gw_context_t × Host :=
  let r := _sys_load_l2transaction (List.replicate E.GW_MAX_L2TX_SIZE 0) E.GW_MAX_L2TX_SIZE h
  if r.1 ≠ 0 then (r.1, ctx, r.2.2.2)
  else if r.2.2.1 > E.GW_MAX_L2TX_SIZE then (E.GW_ERROR_INVALID_DATA, ctx, r.2.2.2)
  else
    let p := E.gw_parse_transaction_context ⟨r.2.1, r.2.2.1⟩
    let ctx1 := { ctx with transaction_context := p.2 }
    if p.1 ≠ 0 then (p.1, ctx1, r.2.2.2)
    else
      let b := _sys_load_block_info (List.replicate E.sizeof_MolDefault_BlockInfo 0)
        E.sizeof_MolDefault_BlockInfo r.2.2.2
      if b.1 ≠ 0 then (b.1, ctx1, b.2.2.2)
      else
        let q := E.gw_parse_block_info ⟨b.2.1, b.2.2.1⟩
        let ctx2 := { ctx1 with block_info := q.2 }
        if q.1 ≠ 0 then (q.1, ctx2, b.2.2.2)
        else (0, ctx2, b.2.2.2)

/-! ## sudt_utils.h -/

def ERROR_INSUFFICIENT_BALANCE : Int := 12
def ERROR_AMOUNT_OVERFLOW : Int := 13
def ERROR_TO_ID : Int := 14
def ERROR_ACCOUNT_NOT_EXISTS : Int := 15
def SUDT_OPERATION_TRANSFER : Nat := 0

/-- The `n` bytes of `x` in memory, least significant first (`memcpy` from an
`n`-byte little-endian integer). -/
def le_bytes : Nat → Nat → Bytes
  | 0, _ => []
  | n + 1, x => x % 256 :: le_bytes n (x / 256)

/-- The integer whose little-endian bytes are `bs`. -/
def le_value : Bytes → Nat
  | [] => 0
  | b :: bs => b + 256 * le_value bs

/-- The number of values of a `uint128_t`; arithmetic on `uint128_t` is taken
modulo it. -/
def u128_size : Nat := 2 ^ 128

/-- The read `*(uint128_t *)value`: the low 16 bytes of the buffer read as a `uint128_t`. -/
def read_u128 (value : Bytes) : Nat :=
  le_value (value.take 16) % u128_size

/-- The write `*(uint128_t *)value = balance` on the buffer `value`. -/
def write_u128 (value : Bytes) (balance : Nat) : Bytes :=
  le_bytes 16 balance ++ value.drop 16

/-- Source function `_sudt_id_to_key`: `memcpy(key, &account_id, 4)`. -/
def _sudt_id_to_key (account_id : Nat) (key : Bytes) : Bytes :=
  le_bytes 4 account_id ++ key.drop 4

/-- Source function `_account_exists`; the result is the return code, `*exists` and the host. -/
def _account_exists (account_id : Nat) (exists_ : Bool) (h : Host) : Int × Bool × Host :=
  let r := sys_get_script_hash_by_account_id account_id zero32 h
  if r.1 ≠ 0 then (r.1, exists_, r.2.2)
  else (0, (List.range 32).any (fun i => r.2.1.getD i 0 != 0), r.2.2)

/-- Source function `_emit_transfer_log`. -/
def _emit_transfer_log (E : Env) (ctx : gw_context_t) (sudt_id from_id to_id amount : Nat)
    (h : Host) : Int × Host :=
  let data_size := 1 + 4 + 4 + 16
  let data := [SUDT_OPERATION_TRANSFER] ++ le_bytes 4 from_id ++ le_bytes 4 to_id
    ++ le_bytes 16 amount
  sys_log E (some ctx) sudt_id E.GW_LOG_SUDT_OPERATION data_size data h

/-- Source function `_sudt_get_balance`; the result is the return code, `*balance` and the host. -/
def _sudt_get_balance (E : Env) (ctx : gw_context_t) (sudt_id : Nat) (key : Bytes)
    (balance : Nat) (h : Host) : Int × Nat × Host :=
  let r := sys_load E (some ctx) sudt_id key zero32 h
  if r.1 ≠ 0 then (r.1, balance, r.2.2)
  else (0, read_u128 r.2.1, r.2.2)

/-- Source function `_sudt_set_balance`. -/
def _sudt_set_balance (E : Env) (ctx : gw_context_t) (sudt_id : Nat) (key : Bytes)
    (balance : Nat) (h : Host) : Int × Host :=
  sys_store E (some ctx) sudt_id key (write_u128 zero32 balance) h

/-- Source function `sudt_get_balance`; the result is the return code, `*balance` and the host. -/
def sudt_get_balance (E : Env) (ctx : gw_context_t) (sudt_id account_id balance : Nat)
    (h : Host) : Int × Nat × Host :=
  let r := _account_exists account_id false h
  if r.1 ≠ 0 ∨ r.2.1 = false then (ERROR_ACCOUNT_NOT_EXISTS, balance, r.2.2)
  else
    let key := _sudt_id_to_key account_id zero32
    _sudt_get_balance E ctx sudt_id key balance r.2.2

/-- Source function `sudt_transfer`. `from_balance` and `to_balance` start uninitialised and are
read only after a successful load; `amount` is a `uint128_t`. -/
def sudt_transfer (E : Env) (ctx : gw_context_t) (sudt_id from_id to_id amount : Nat)
    (h : Host) : Int × Host :=
  if from_id = to_id then (ERROR_TO_ID, h)
  else
    let e1 := _account_exists from_id false h
    if e1.1 ≠ 0 ∨ e1.2.1 = false then (ERROR_ACCOUNT_NOT_EXISTS, e1.2.2)
    else
      let e2 := _account_exists to_id e1.2.1 e1.2.2
      if e2.1 ≠ 0 ∨ e2.2.1 = false then (ERROR_ACCOUNT_NOT_EXISTS, e2.2.2)
      else
        let from_key := _sudt_id_to_key from_id zero32
        let g1 := _sudt_get_balance E ctx sudt_id from_key 0 e2.2.2
        if g1.1 ≠ 0 then (g1.1, g1.2.2)
        else
          let from_balance := g1.2.1
          if from_balance < amount then (ERROR_INSUFFICIENT_BALANCE, g1.2.2)
          else
            let new_from_balance := from_balance - amount
            let to_key := _sudt_id_to_key to_id zero32
            let g2 := _sudt_get_balance E ctx sudt_id to_key 0 g1.2.2
            if g2.1 ≠ 0 then (g2.1, g2.2.2)
            else
              let to_balance := g2.2.1
              let new_to_balance := (to_balance + amount) % u128_size
              if new_to_balance < to_balance then (ERROR_AMOUNT_OVERFLOW, g2.2.2)
              else
                let s1 := _sudt_set_balance E ctx sudt_id from_key new_from_balance g2.2.2
                if s1.1 ≠ 0 then (s1.1, s1.2)
                else
                  let s2 := _sudt_set_balance E ctx sudt_id to_key new_to_balance s1.2
                  if s2.1 ≠ 0 then (s2.1, s2.2)
                  else _emit_transfer_log E ctx sudt_id from_id to_id amount s2.2

/-! ## Vocabulary of the statements -/

/-- The 32 bytes of a script hash are all zero: the host's sentinel for an
account that does not exist. -/
def is_zero_hash (script_hash : Bytes) : Prop :=
  ∀ i, i < 32 → script_hash.getD i 0 = 0

instance (script_hash : Bytes) : Decidable (is_zero_hash script_hash) := by
  unfold is_zero_hash; infer_instance

/-- The script-hash lookup call for an account id. -/
abbrev lookup (account_id : Nat) : Syscall := .LOAD_SCRIPT_HASH_BY_ACCOUNT_ID account_id

/-- The balance key of a holder: what `sudt_get_balance` and `sudt_transfer`
build with `_sudt_id_to_key` on a zeroed 32-byte buffer. -/
def balance_key (account_id : Nat) : Bytes :=
  _sudt_id_to_key account_id zero32

/-- The call is a `GW_SYS_LOAD`. -/
def Syscall.isLoad : Syscall → Bool
  | .LOAD _ => true
  | _ => false

/-- The call is a `GW_SYS_STORE`. -/
def Syscall.isStore : Syscall → Bool
  | .STORE _ _ => true
  | _ => false

/-- The call is a `GW_SYS_LOG`. -/
def Syscall.isLog : Syscall → Bool
  | .LOG _ _ _ _ => true
  | _ => false

/-- The calls issued between the host states `h` and `k`, oldest first, each with
the code the host returned. -/
def issued (h k : Host) : List Event :=
  k.trace.drop h.trace.length

/-- The code `_ensure_account_exists` returns for an account id in a host state. -/
def ensure_ret (E : Env) (h : Host) (account_id : Nat) : Int :=
  if h.fault (lookup account_id) ≠ 0 then h.fault (lookup account_id)
  else if is_zero_hash (h.script_hash account_id) then E.GW_ERROR_ACCOUNT_NOT_FOUND else 0

/-- The host after the calls `cs` were issued, none of them a successful store. -/
def Host.after (h : Host) (cs : List Syscall) : Host :=
  { h with trace := h.trace ++ cs.map (fun c => ⟨c, h.fault c⟩) }

/-- The run of `sudt_get_balance` as a decision list over the host's tables. -/
def get_balance_run (E : Env) (s a bal : Nat) (h : Host) : Int × Nat × Host :=
  let ka := E.gw_build_account_key s (balance_key a)
  if h.fault (lookup a) ≠ 0 ∨ is_zero_hash (h.script_hash a) then
    (ERROR_ACCOUNT_NOT_EXISTS, bal, h.after [lookup a])
  else if ensure_ret E h s ≠ 0 then (ensure_ret E h s, bal, h.after [lookup a, lookup s])
  else if h.fault (.LOAD ka) ≠ 0 then
    (h.fault (.LOAD ka), bal, h.after [lookup a, lookup s, .LOAD ka])
  else (0, read_u128 (h.kv ka), h.after [lookup a, lookup s, .LOAD ka])

/-- The run of `sudt_transfer` as a decision list over the host's tables. -/
def transfer_run (E : Env) (s a b m : Nat) (h : Host) : Int × Host :=
  let ka := E.gw_build_account_key s (balance_key a)
  let kb := E.gw_build_account_key s (balance_key b)
  let fb := read_u128 (h.kv ka)
  let tb := read_u128 (h.kv kb)
  let va := write_u128 zero32 (fb - m)
  let vb := write_u128 zero32 ((tb + m) % u128_size)
  if a = b then (ERROR_TO_ID, h)
  else if h.fault (lookup a) ≠ 0 ∨ is_zero_hash (h.script_hash a) then
    (ERROR_ACCOUNT_NOT_EXISTS, h.after [lookup a])
  else if h.fault (lookup b) ≠ 0 ∨ is_zero_hash (h.script_hash b) then
    (ERROR_ACCOUNT_NOT_EXISTS, h.after [lookup a, lookup b])
  else if ensure_ret E h s ≠ 0 then
    (ensure_ret E h s, h.after [lookup a, lookup b, lookup s])
  else if h.fault (.LOAD ka) ≠ 0 then
    (h.fault (.LOAD ka), h.after [lookup a, lookup b, lookup s, .LOAD ka])
  else if fb < m then
    (ERROR_INSUFFICIENT_BALANCE, h.after [lookup a, lookup b, lookup s, .LOAD ka])
  else if h.fault (.LOAD kb) ≠ 0 then
    (h.fault (.LOAD kb), h.after [lookup a, lookup b, lookup s, .LOAD ka, lookup s, .LOAD kb])
  else if (tb + m) % u128_size < tb then
    (ERROR_AMOUNT_OVERFLOW,
      h.after [lookup a, lookup b, lookup s, .LOAD ka, lookup s, .LOAD kb])
  else if h.fault (.STORE ka va) ≠ 0 then
    (h.fault (.STORE ka va),
      h.after [lookup a, lookup b, lookup s, .LOAD ka, lookup s, .LOAD kb, lookup s,
        .STORE ka va])
  else if h.fault (.STORE kb vb) ≠ 0 then
    (h.fault (.STORE kb vb),
      (h.after [lookup a, lookup b, lookup s, .LOAD ka, lookup s, .LOAD kb, lookup s,
        .STORE ka va, lookup s, .STORE kb vb]).put ka va)
  else
    (h.fault (.LOG s E.GW_LOG_SUDT_OPERATION 25
        ([0] ++ le_bytes 4 a ++ le_bytes 4 b ++ le_bytes 16 m)),
      ((h.after [lookup a, lookup b, lookup s, .LOAD ka, lookup s, .LOAD kb, lookup s,
        .STORE ka va, lookup s, .STORE kb vb, lookup s,
        .LOG s E.GW_LOG_SUDT_OPERATION 25
          ([0] ++ le_bytes 4 a ++ le_bytes 4 b ++ le_bytes 16 m)]).put ka va).put kb vb)

/-- Every check of `sudt_transfer` before the log passes and the two stores
succeed. -/
def transfer_passes (E : Env) (s a b m : Nat) (h : Host) : Prop :=
  a ≠ b ∧
  (h.fault (lookup a) = 0 ∧ ¬ is_zero_hash (h.script_hash a)) ∧
  (h.fault (lookup b) = 0 ∧ ¬ is_zero_hash (h.script_hash b)) ∧
  ensure_ret E h s = 0 ∧
  h.fault (.LOAD (E.gw_build_account_key s (balance_key a))) = 0 ∧
  m ≤ read_u128 (h.kv (E.gw_build_account_key s (balance_key a))) ∧
  h.fault (.LOAD (E.gw_build_account_key s (balance_key b))) = 0 ∧
  ¬ (read_u128 (h.kv (E.gw_build_account_key s (balance_key b))) + m) % u128_size
      < read_u128 (h.kv (E.gw_build_account_key s (balance_key b))) ∧
  h.fault (.STORE (E.gw_build_account_key s (balance_key a))
    (write_u128 zero32 (read_u128 (h.kv (E.gw_build_account_key s (balance_key a))) - m))) = 0 ∧
  h.fault (.STORE (E.gw_build_account_key s (balance_key b))
    (write_u128 zero32
      ((read_u128 (h.kv (E.gw_build_account_key s (balance_key b))) + m) % u128_size))) = 0

/-- The calls of a `sudt_transfer` that reaches the log, in order. -/
def transfer_calls (E : Env) (s a b m : Nat) (h : Host) : List Syscall :=
  [lookup a, lookup b,
   lookup s, .LOAD (E.gw_build_account_key s (balance_key a)),
   lookup s, .LOAD (E.gw_build_account_key s (balance_key b)),
   lookup s, .STORE (E.gw_build_account_key s (balance_key a))
    (write_u128 zero32 (read_u128 (h.kv (E.gw_build_account_key s (balance_key a))) - m)),
   lookup s, .STORE (E.gw_build_account_key s (balance_key b))
    (write_u128 zero32
      ((read_u128 (h.kv (E.gw_build_account_key s (balance_key b))) + m) % u128_size)),
   lookup s, .LOG s E.GW_LOG_SUDT_OPERATION 25
    ([0] ++ le_bytes 4 a ++ le_bytes 4 b ++ le_bytes 16 m)]

/-- Every check of `sudt_transfer` before its write step passes: the two
holders differ and exist, the two balances are read, the balance of `a` covers
`m` and the wrap-around test does not fire. -/
def transfer_reaches_write (E : Env) (s a b m : Nat) (h : Host) : Prop :=
  a ≠ b ∧
  (h.fault (lookup a) = 0 ∧ ¬ is_zero_hash (h.script_hash a)) ∧
  (h.fault (lookup b) = 0 ∧ ¬ is_zero_hash (h.script_hash b)) ∧
  ensure_ret E h s = 0 ∧
  h.fault (.LOAD (E.gw_build_account_key s (balance_key a))) = 0 ∧
  m ≤ read_u128 (h.kv (E.gw_build_account_key s (balance_key a))) ∧
  h.fault (.LOAD (E.gw_build_account_key s (balance_key b))) = 0 ∧
  ¬ (read_u128 (h.kv (E.gw_build_account_key s (balance_key b))) + m) % u128_size
      < read_u128 (h.kv (E.gw_build_account_key s (balance_key b)))

/-- The run of `sudt_transfer` from its write step on. -/
def transfer_write_run (E : Env) (s a b m : Nat) (h : Host) : Int × Host :=
  let ka := E.gw_build_account_key s (balance_key a)
  let kb := E.gw_build_account_key s (balance_key b)
  let va := write_u128 zero32 (read_u128 (h.kv ka) - m)
  let vb := write_u128 zero32 ((read_u128 (h.kv kb) + m) % u128_size)
  if h.fault (.STORE ka va) ≠ 0 then
    (h.fault (.STORE ka va),
      h.after [lookup a, lookup b, lookup s, .LOAD ka, lookup s, .LOAD kb, lookup s,
        .STORE ka va])
  else if h.fault (.STORE kb vb) ≠ 0 then
    (h.fault (.STORE kb vb),
      (h.after [lookup a, lookup b, lookup s, .LOAD ka, lookup s, .LOAD kb, lookup s,
        .STORE ka va, lookup s, .STORE kb vb]).put ka va)
  else
    (h.fault (.LOG s E.GW_LOG_SUDT_OPERATION 25
        ([0] ++ le_bytes 4 a ++ le_bytes 4 b ++ le_bytes 16 m)),
      ((h.after [lookup a, lookup b, lookup s, .LOAD ka, lookup s, .LOAD kb, lookup s,
        .STORE ka va, lookup s, .STORE kb vb, lookup s,
        .LOG s E.GW_LOG_SUDT_OPERATION 25
          ([0] ++ le_bytes 4 a ++ le_bytes 4 b ++ le_bytes 16 m)]).put ka va).put kb vb)

/-- The balances carried by the stores among the calls `evs`, decoded, in the
order of the calls. -/
def stored_values (evs : List Event) : List Nat :=
  evs.filterMap (fun ev =>
    match ev.call with
    | .STORE _ value => some (read_u128 value)
    | _ => none)

/-- Modelled from the spec: `gw_build_account_key` of `common.h`, which is not
among the source files. The spec (3, 4.1, 6) describes the derived key as a
fixed 32-byte key that combines the 4-byte account id with the 32-byte logical
key, deterministically, injective per account, and such that two accounts never
meet on the same key for the same logical key; it leaves the combination open.
The model fills the 32 bytes of `raw_key` with the logical key, the 4
little-endian bytes of the account id XORed into its first 4 bytes. -/
def gw_build_account_key (account_id : Nat) (key : Bytes) : Bytes :=
  (List.range 32).map (fun i => key.getD i 0 ^^^ (le_bytes 4 account_id).getD i 0)

/-! ## Example values -/

/-- Example values for the absent constants and helpers, used to evaluate the
code on concrete inputs. The key builder puts the account id in front of the
first 28 bytes of the logical key. -/
def exampleEnv : Env where
  GW_ERROR_INVALID_DATA := 43
  GW_ERROR_INVALID_CONTEXT := 45
  GW_ERROR_ACCOUNT_NOT_FOUND := 49
  GW_MAX_L2TX_SIZE := 8
  sizeof_MolDefault_BlockInfo := 4
  GW_LOG_SUDT_OPERATION := 1
  gw_build_account_key := fun id key => le_bytes 4 id ++ key.take 28
  gw_build_nonce_key := fun id => le_bytes 4 id ++ List.replicate 28 255
  gw_parse_transaction_context := fun seg =>
    (if seg.size < 8 then 43 else 0, ⟨seg.ptr.getD 0 0, seg.ptr.getD 4 0, seg.ptr.drop 8⟩)
  gw_parse_block_info := fun seg =>
    (if seg.size = 4 then 0 else 43, ⟨seg.ptr.getD 0 0, seg.ptr.getD 1 0, seg.ptr.getD 2 0⟩)

/-- An example context. -/
def exampleCtx : gw_context_t := ⟨⟨0, 0, []⟩, ⟨0, 0, 0⟩⟩

/-- An example host: accounts 1, 2 and 5 exist, holder 1 has balance 100 in
ledger 5, every other slot is zero, every call succeeds. -/
def exampleHost : Host where
  script_hash := fun id => if id = 1 ∨ id = 2 ∨ id = 5 then List.replicate 32 7 else List.replicate 32 0
  kv := fun k =>
    if k = exampleEnv.gw_build_account_key 5 (balance_key 1) then 100 :: List.replicate 31 0
    else List.replicate 32 0
  l2transaction := [1, 0, 0, 0, 2, 0, 0, 0]
  block_info := [9, 8, 7, 6]
  fault := fun _ => 0
  trace := []

/-- The example host with the balance of holder 2 in ledger 5 at `2 ^ 128 - 1`. -/
def fullHost : Host :=
  exampleHost.put (exampleEnv.gw_build_account_key 5 (balance_key 2))
    (List.replicate 16 255 ++ List.replicate 16 0)

/-- The example host with two failing calls: the script-hash lookup of account 1
fails with code 7 and every `GW_SYS_LOAD` fails with code 9. -/
def faultyHost : Host :=
  { exampleHost with
    fault := fun c =>
      match c with
      | .LOAD_SCRIPT_HASH_BY_ACCOUNT_ID 1 => 7
      | .LOAD _ => 9
      | _ => 0 }

/-- The example values with a block-info decoder that accepts every segment. -/
def lenientEnv : Env :=
  { exampleEnv with
    gw_parse_block_info := fun seg => (0, ⟨seg.ptr.getD 0 0, seg.ptr.getD 1 0, seg.size⟩) }

/-- The example host holding a block-info record of 5 bytes, one more than the
capacity of the block-info buffer in the example values. -/
def oversizeHost : Host :=
  { exampleHost with block_info := [9, 8, 7, 6, 5] }

/-- The example values with a key builder that keeps the length of the logical
key and is injective on the logical keys of every account: the key rotated by
the account id modulo 32. -/
def rotEnv : Env :=
  { exampleEnv with gw_build_account_key := fun id key => key.rotate (id % 32) }

/-- The example host on which every store to the balance slot of holder 2 in
ledger 5 fails with code 11. -/
def tornHost : Host :=
  { exampleHost with
    fault := fun c =>
      match c with
      | .STORE k _ => if k = exampleEnv.gw_build_account_key 5 (balance_key 2) then 11 else 0
      | _ => 0 }

/-- The example host on which every store fails with code 11. -/
def readOnlyHost : Host :=
  { exampleHost with
    fault := fun c =>
      match c with
      | .STORE _ _ => 11
      | _ => 0 }

/-! ## Basic facts about the host and the helpers -/

@[simp] theorem Host.emit_fault (h : Host) (c : Syscall) : (h.emit c).fault = h.fault := rfl
@[simp] theorem Host.emit_kv (h : Host) (c : Syscall) : (h.emit c).kv = h.kv := rfl
@[simp] theorem Host.emit_script_hash (h : Host) (c : Syscall) :
    (h.emit c).script_hash = h.script_hash := rfl
@[simp] theorem Host.emit_trace (h : Host) (c : Syscall) :
    (h.emit c).trace = h.trace ++ [⟨c, h.fault c⟩] := rfl
@[simp] theorem Host.put_fault (h : Host) (k v : Bytes) : (h.put k v).fault = h.fault := rfl
@[simp] theorem Host.put_script_hash (h : Host) (k v : Bytes) :
    (h.put k v).script_hash = h.script_hash := rfl
@[simp] theorem Host.put_trace (h : Host) (k v : Bytes) : (h.put k v).trace = h.trace := rfl
@[simp] theorem Host.put_kv (h : Host) (k v k2 : Bytes) :
    (h.put k v).kv k2 = if k2 = k then v else h.kv k2 := rfl

theorem any_nonzero_iff (script_hash : Bytes) :
    (List.range 32).any (fun i => script_hash.getD i 0 != 0) = true ↔
      ¬ is_zero_hash script_hash := by
  simp [is_zero_hash, List.any_eq_true]

theorem any_nonzero_false_iff (script_hash : Bytes) :
    (List.range 32).any (fun i => script_hash.getD i 0 != 0) = false ↔
      is_zero_hash script_hash := by
  rw [← Bool.not_eq_true, any_nonzero_iff, not_not]

theorem ensure_account_exists_eq (E : Env) (account_id : Nat) (h : Host) :
    _ensure_account_exists E account_id h =
      (if h.fault (lookup account_id) ≠ 0 then h.fault (lookup account_id)
        else if is_zero_hash (h.script_hash account_id) then E.GW_ERROR_ACCOUNT_NOT_FOUND else 0,
       h.emit (lookup account_id)) := by
  unfold _ensure_account_exists sys_get_script_hash_by_account_id syscall
  by_cases hf : h.fault (lookup account_id) = 0
  · by_cases hz : is_zero_hash (h.script_hash account_id)
    · have hany := (any_nonzero_false_iff _).2 hz
      simp only [lookup] at hf
      simp only [hf, ne_eq, not_true_eq_false, if_false, hany, hz, if_true, Bool.false_eq_true]
    · have hany := (any_nonzero_iff _).2 hz
      simp only [lookup] at hf
      simp only [hf, ne_eq, not_true_eq_false, if_false, hany, hz, if_true]
  · simp only [lookup] at hf
    simp only [ne_eq, hf, not_false_eq_true, if_true]

theorem account_exists_eq (account_id : Nat) (ex : Bool) (h : Host) :
    _account_exists account_id ex h =
      (h.fault (lookup account_id),
       if h.fault (lookup account_id) ≠ 0 then ex
        else decide (¬ is_zero_hash (h.script_hash account_id)),
       h.emit (lookup account_id)) := by
  unfold _account_exists sys_get_script_hash_by_account_id syscall
  by_cases hf : h.fault (lookup account_id) = 0
  · by_cases hz : is_zero_hash (h.script_hash account_id)
    · have hany := (any_nonzero_false_iff _).2 hz
      simp only [lookup] at hf
      simp only [hf, ne_eq, not_true_eq_false, if_false, hany, hz, decide_False]
    · have hany := (any_nonzero_iff _).2 hz
      simp only [lookup] at hf
      simp only [hf, ne_eq, not_true_eq_false, if_false, hany, hz, not_false_eq_true,
        decide_True]
  · simp only [lookup] at hf
    simp only [ne_eq, hf, not_false_eq_true, if_true]

theorem ensure_account_exists_ret (E : Env) (account_id : Nat) (h : Host) :
    _ensure_account_exists E account_id h = (ensure_ret E h account_id, h.emit (lookup account_id)) :=
  ensure_account_exists_eq E account_id h

theorem sys_load_eq (E : Env) (ctx : gw_context_t) (account_id : Nat) (key value : Bytes)
    (h : Host) :
    sys_load E (some ctx) account_id key value h =
      if ensure_ret E h account_id ≠ 0 then
        (ensure_ret E h account_id, value, h.emit (lookup account_id))
      else if h.fault (.LOAD (E.gw_build_account_key account_id key)) ≠ 0 then
        (h.fault (.LOAD (E.gw_build_account_key account_id key)), value,
          (h.emit (lookup account_id)).emit (.LOAD (E.gw_build_account_key account_id key)))
      else
        (0, h.kv (E.gw_build_account_key account_id key),
          (h.emit (lookup account_id)).emit (.LOAD (E.gw_build_account_key account_id key))) := by
  simp only [sys_load, ensure_account_exists_ret, syscall, Host.emit_fault, Host.emit_kv]

theorem sys_store_eq (E : Env) (ctx : gw_context_t) (account_id : Nat) (key value : Bytes)
    (h : Host) :
    sys_store E (some ctx) account_id key value h =
      if ensure_ret E h account_id ≠ 0 then
        (ensure_ret E h account_id, h.emit (lookup account_id))
      else if h.fault (.STORE (E.gw_build_account_key account_id key) value) ≠ 0 then
        (h.fault (.STORE (E.gw_build_account_key account_id key) value),
          (h.emit (lookup account_id)).emit (.STORE (E.gw_build_account_key account_id key) value))
      else
        (0, ((h.emit (lookup account_id)).emit
          (.STORE (E.gw_build_account_key account_id key) value)).put
            (E.gw_build_account_key account_id key) value) := by
  simp only [sys_store, ensure_account_exists_ret, syscall, Host.emit_fault]
  split_ifs <;> rfl

theorem sys_log_eq (E : Env) (ctx : gw_context_t) (account_id service_flag data_length : Nat)
    (data : Bytes) (h : Host) :
    sys_log E (some ctx) account_id service_flag data_length data h =
      if ensure_ret E h account_id ≠ 0 then
        (ensure_ret E h account_id, h.emit (lookup account_id))
      else
        (h.fault (.LOG account_id service_flag data_length data),
          (h.emit (lookup account_id)).emit (.LOG account_id service_flag data_length data)) := by
  simp only [sys_log, ensure_account_exists_ret, syscall, Host.emit_fault]
  split_ifs with h1 h2 <;> first | rfl | simp_all

theorem sys_load_nonce_eq (E : Env) (ctx : gw_context_t) (account_id : Nat) (value : Bytes)
    (h : Host) :
    sys_load_nonce E (some ctx) account_id value h =
      if ensure_ret E h account_id ≠ 0 then
        (ensure_ret E h account_id, value, h.emit (lookup account_id))
      else if h.fault (.LOAD (E.gw_build_nonce_key account_id)) ≠ 0 then
        (h.fault (.LOAD (E.gw_build_nonce_key account_id)), value,
          (h.emit (lookup account_id)).emit (.LOAD (E.gw_build_nonce_key account_id)))
      else
        (0, h.kv (E.gw_build_nonce_key account_id),
          (h.emit (lookup account_id)).emit (.LOAD (E.gw_build_nonce_key account_id))) := by
  simp only [sys_load_nonce, ensure_account_exists_ret, syscall, Host.emit_fault, Host.emit_kv]

/-! ## Little-endian encoding -/

theorem le_bytes_length (n x : Nat) : (le_bytes n x).length = n := by
  induction n generalizing x with
  | zero => rfl
  | succ n ih => simp [le_bytes, ih]

theorem le_value_le_bytes (n x : Nat) : le_value (le_bytes n x) = x % 256 ^ n := by
  induction n generalizing x with
  | zero => simp [le_bytes, le_value, Nat.mod_one]
  | succ n ih =>
    simp only [le_bytes, le_value, ih]
    rw [pow_succ, Nat.mul_comm (256 ^ n) 256, Nat.mod_mul, Nat.add_comm]

theorem read_u128_write_u128 (value : Bytes) (x : Nat) :
    read_u128 (write_u128 value x) = x % u128_size := by
  unfold read_u128 write_u128 u128_size
  have hl : (le_bytes 16 x).length = 16 := le_bytes_length 16 x
  rw [List.take_append_of_le_length (by omega), List.take_of_length_le (by omega),
    le_value_le_bytes]
  norm_num

theorem le_value_lt (bs : Bytes) (hb : ∀ x ∈ bs, x < 256) : le_value bs < 256 ^ bs.length := by
  induction bs with
  | nil => simp [le_value]
  | cons x xs ih =>
    have hx : x < 256 := hb x (List.mem_cons_self x xs)
    have hxs := ih (fun y hy => hb y (List.mem_cons_of_mem x hy))
    simp only [le_value, List.length_cons, pow_succ]
    omega

theorem balance_key_bytes (a : Nat) : balance_key a = le_bytes 4 a ++ List.replicate 28 0 := by
  simp [balance_key, _sudt_id_to_key, zero32]

theorem read_u128_lt (value : Bytes) : read_u128 value < u128_size :=
  Nat.mod_lt _ (by norm_num [u128_size])

/-! ## The runs of the ledger operations as decision lists -/

@[simp] theorem Host.after_fault (h : Host) (cs : List Syscall) : (h.after cs).fault = h.fault := rfl
@[simp] theorem Host.after_kv (h : Host) (cs : List Syscall) : (h.after cs).kv = h.kv := rfl
@[simp] theorem Host.after_script_hash (h : Host) (cs : List Syscall) :
    (h.after cs).script_hash = h.script_hash := rfl
@[simp] theorem Host.after_trace (h : Host) (cs : List Syscall) :
    (h.after cs).trace = h.trace ++ cs.map (fun c => ⟨c, h.fault c⟩) := rfl
@[simp] theorem Host.emit_eq_after (h : Host) (c : Syscall) : h.emit c = h.after [c] := rfl
@[simp] theorem Host.after_after (h : Host) (cs ds : List Syscall) :
    (h.after cs).after ds = h.after (cs ++ ds) := by
  simp [Host.after]
@[simp] theorem Host.put_after (h : Host) (k v : Bytes) (cs : List Syscall) :
    (h.put k v).after cs = (h.after cs).put k v := rfl
@[simp] theorem ensure_ret_after (E : Env) (h : Host) (cs : List Syscall) (account_id : Nat) :
    ensure_ret E (h.after cs) account_id = ensure_ret E h account_id := rfl
@[simp] theorem ensure_ret_put (E : Env) (h : Host) (k v : Bytes) (account_id : Nat) :
    ensure_ret E (h.put k v) account_id = ensure_ret E h account_id := rfl

@[simp] theorem issued_self (h : Host) : issued h h = [] := by
  simp [issued]

@[simp] theorem issued_after (h : Host) (cs : List Syscall) :
    issued h (h.after cs) = cs.map (fun c => ⟨c, h.fault c⟩) := by
  simp [issued]

@[simp] theorem issued_put (h k : Host) (key v : Bytes) :
    issued h (k.put key v) = issued h k := rfl

theorem balance_key_eq (a : Nat) : _sudt_id_to_key a zero32 = balance_key a := rfl

theorem sudt_get_balance_eq_run (E : Env) (ctx : gw_context_t) (s a bal : Nat) (h : Host) :
    sudt_get_balance E ctx s a bal h = get_balance_run E s a bal h := by
  by_cases c1 : h.fault (lookup a) ≠ 0 ∨ is_zero_hash (h.script_hash a)
  · rcases c1 with c1 | c1 <;>
      simp [sudt_get_balance, get_balance_run, account_exists_eq, c1]
  · push_neg at c1
    obtain ⟨f1, z1⟩ := c1
    by_cases c2 : ensure_ret E h s = 0
    · by_cases c3 : h.fault (.LOAD (E.gw_build_account_key s (balance_key a))) = 0
      · simp [sudt_get_balance, get_balance_run, account_exists_eq, _sudt_get_balance,
          sys_load_eq, f1, z1, c2, c3, balance_key_eq]
      · simp [sudt_get_balance, get_balance_run, account_exists_eq, _sudt_get_balance,
          sys_load_eq, f1, z1, c2, c3, balance_key_eq]
    · simp [sudt_get_balance, get_balance_run, account_exists_eq, _sudt_get_balance,
        sys_load_eq, f1, z1, c2, balance_key_eq]

theorem sudt_transfer_eq_run (E : Env) (ctx : gw_context_t) (s a b m : Nat) (h : Host) :
    sudt_transfer E ctx s a b m h = transfer_run E s a b m h := by
  by_cases c0 : a = b
  · simp [sudt_transfer, transfer_run, c0]
  by_cases c1 : h.fault (lookup a) ≠ 0 ∨ is_zero_hash (h.script_hash a)
  · rcases c1 with c1 | c1 <;>
      simp [sudt_transfer, transfer_run, account_exists_eq, c0, c1]
  push_neg at c1
  obtain ⟨f1, z1⟩ := c1
  by_cases c2 : h.fault (lookup b) ≠ 0 ∨ is_zero_hash (h.script_hash b)
  · rcases c2 with c2 | c2 <;>
      simp [sudt_transfer, transfer_run, account_exists_eq, c0, f1, z1, c2]
  push_neg at c2
  obtain ⟨f2, z2⟩ := c2
  by_cases c3 : ensure_ret E h s = 0
  swap
  · simp [sudt_transfer, transfer_run, account_exists_eq, _sudt_get_balance, sys_load_eq,
      balance_key_eq, c0, f1, z1, f2, z2, c3]
  by_cases c4 : h.fault (.LOAD (E.gw_build_account_key s (balance_key a))) = 0
  swap
  · simp [sudt_transfer, transfer_run, account_exists_eq, _sudt_get_balance, sys_load_eq,
      balance_key_eq, c0, f1, z1, f2, z2, c3, c4]
  by_cases c5 : read_u128 (h.kv (E.gw_build_account_key s (balance_key a))) < m
  · simp [sudt_transfer, transfer_run, account_exists_eq, _sudt_get_balance, sys_load_eq,
      balance_key_eq, c0, f1, z1, f2, z2, c3, c4, c5]
  by_cases c6 : h.fault (.LOAD (E.gw_build_account_key s (balance_key b))) = 0
  swap
  · simp [sudt_transfer, transfer_run, account_exists_eq, _sudt_get_balance, sys_load_eq,
      balance_key_eq, c0, f1, z1, f2, z2, c3, c4, c5, c6]
  by_cases c7 : (read_u128 (h.kv (E.gw_build_account_key s (balance_key b))) + m) % u128_size
      < read_u128 (h.kv (E.gw_build_account_key s (balance_key b)))
  · simp [sudt_transfer, transfer_run, account_exists_eq, _sudt_get_balance, sys_load_eq,
      balance_key_eq, c0, f1, z1, f2, z2, c3, c4, c5, c6, c7]
  by_cases c8 : h.fault (.STORE (E.gw_build_account_key s (balance_key a))
      (write_u128 zero32 (read_u128 (h.kv (E.gw_build_account_key s (balance_key a))) - m))) = 0
  swap
  · simp [sudt_transfer, transfer_run, account_exists_eq, _sudt_get_balance, sys_load_eq,
      _sudt_set_balance, sys_store_eq, balance_key_eq, c0, f1, z1, f2, z2, c3, c4, c5, c6, c7, c8]
  by_cases c9 : h.fault (.STORE (E.gw_build_account_key s (balance_key b))
      (write_u128 zero32
        ((read_u128 (h.kv (E.gw_build_account_key s (balance_key b))) + m) % u128_size))) = 0
  swap
  · simp [sudt_transfer, transfer_run, account_exists_eq, _sudt_get_balance, sys_load_eq,
      _sudt_set_balance, sys_store_eq, balance_key_eq, c0, f1, z1, f2, z2, c3, c4, c5, c6, c7, c8,
      c9]
  simp [sudt_transfer, transfer_run, account_exists_eq, _sudt_get_balance, sys_load_eq,
      _sudt_set_balance, sys_store_eq, _emit_transfer_log, sys_log_eq, balance_key_eq,
      SUDT_OPERATION_TRANSFER, c0, f1, z1, f2, z2, c3, c4, c5, c6, c7, c8, c9]

/-- The wrap-around test of `sudt_transfer` fires exactly when the sum leaves
the 128-bit range. -/
theorem wrap_lt_iff (x m : Nat) (hx : x < u128_size) (hm : m < u128_size) :
    (x + m) % u128_size < x ↔ u128_size ≤ x + m := by
  constructor
  · intro hw
    by_contra hlt
    rw [Nat.mod_eq_of_lt (by omega)] at hw
    omega
  · intro hge
    have h1 : (x + m) % u128_size = x + m - u128_size := by
      rw [Nat.mod_eq_sub_mod hge, Nat.mod_eq_of_lt (by omega)]
    omega

theorem sudt_transfer_of_passes (E : Env) (ctx : gw_context_t) (s a b m : Nat) (h : Host)
    (hp : transfer_passes E s a b m h) :
    sudt_transfer E ctx s a b m h =
      (h.fault (.LOG s E.GW_LOG_SUDT_OPERATION 25
          ([0] ++ le_bytes 4 a ++ le_bytes 4 b ++ le_bytes 16 m)),
        ((h.after (transfer_calls E s a b m h)).put
          (E.gw_build_account_key s (balance_key a))
          (write_u128 zero32
            (read_u128 (h.kv (E.gw_build_account_key s (balance_key a))) - m))).put
          (E.gw_build_account_key s (balance_key b))
          (write_u128 zero32
            ((read_u128 (h.kv (E.gw_build_account_key s (balance_key b))) + m) % u128_size))) := by
  obtain ⟨c0, ⟨f1, z1⟩, ⟨f2, z2⟩, c3, c4, c5, c6, c7, c8, c9⟩ := hp
  rw [sudt_transfer_eq_run]
  simp [transfer_run, transfer_calls, c0, f1, z1, f2, z2, c3, c4, Nat.not_lt.2 c5, c6, c7, c8, c9]

theorem passes_of_sudt_transfer_zero (E : Env) (ctx : gw_context_t) (s a b m : Nat) (h : Host)
    (hsucc : (sudt_transfer E ctx s a b m h).1 = 0) :
    transfer_passes E s a b m h ∧
      h.fault (.LOG s E.GW_LOG_SUDT_OPERATION 25
        ([0] ++ le_bytes 4 a ++ le_bytes 4 b ++ le_bytes 16 m)) = 0 := by
  rw [sudt_transfer_eq_run] at hsucc
  by_cases c0 : a = b
  · simp [transfer_run, c0, ERROR_TO_ID] at hsucc
  by_cases c1 : h.fault (lookup a) ≠ 0 ∨ is_zero_hash (h.script_hash a)
  · simp [transfer_run, c0, c1, ERROR_ACCOUNT_NOT_EXISTS] at hsucc
  by_cases c2 : h.fault (lookup b) ≠ 0 ∨ is_zero_hash (h.script_hash b)
  · simp [transfer_run, c0, c1, c2, ERROR_ACCOUNT_NOT_EXISTS] at hsucc
  by_cases c3 : ensure_ret E h s ≠ 0
  · simp [transfer_run, c0, c1, c2, c3] at hsucc
  by_cases c4 : h.fault (.LOAD (E.gw_build_account_key s (balance_key a))) ≠ 0
  · simp [transfer_run, c0, c1, c2, c3, c4] at hsucc
  by_cases c5 : read_u128 (h.kv (E.gw_build_account_key s (balance_key a))) < m
  · simp [transfer_run, c0, c1, c2, c3, c4, c5, ERROR_INSUFFICIENT_BALANCE] at hsucc
  by_cases c6 : h.fault (.LOAD (E.gw_build_account_key s (balance_key b))) ≠ 0
  · simp [transfer_run, c0, c1, c2, c3, c4, c5, c6] at hsucc
  by_cases c7 : (read_u128 (h.kv (E.gw_build_account_key s (balance_key b))) + m) % u128_size
      < read_u128 (h.kv (E.gw_build_account_key s (balance_key b)))
  · simp [transfer_run, c0, c1, c2, c3, c4, c5, c6, c7, ERROR_AMOUNT_OVERFLOW] at hsucc
  by_cases c8 : h.fault (.STORE (E.gw_build_account_key s (balance_key a))
      (write_u128 zero32 (read_u128 (h.kv (E.gw_build_account_key s (balance_key a))) - m))) ≠ 0
  · simp [transfer_run, c0, c1, c2, c3, c4, c5, c6, c7, c8] at hsucc
  by_cases c9 : h.fault (.STORE (E.gw_build_account_key s (balance_key b))
      (write_u128 zero32
        ((read_u128 (h.kv (E.gw_build_account_key s (balance_key b))) + m) % u128_size))) ≠ 0
  · simp [transfer_run, c0, c1, c2, c3, c4, c5, c6, c7, c8, c9] at hsucc
  have hlog : h.fault (.LOG s E.GW_LOG_SUDT_OPERATION 25
      ([0] ++ le_bytes 4 a ++ le_bytes 4 b ++ le_bytes 16 m)) = 0 := by
    simpa [transfer_run, c0, c1, c2, c3, c4, c5, c6, c7, c8, c9] using hsucc
  push_neg at c1 c2 c3 c4 c5 c6 c8 c9
  exact ⟨⟨c0, c1, c2, c3, c4, c5, c6, c7, c8, c9⟩, hlog⟩

/-- The code and the balance `sudt_get_balance` gives depend on the host only
through its return codes, its script hashes and its storage. -/
theorem sudt_get_balance_congr (E : Env) (ctx : gw_context_t) (s a bal : Nat) (h k : Host)
    (hf : k.fault = h.fault) (hs : k.script_hash = h.script_hash) (hkv : k.kv = h.kv) :
    (sudt_get_balance E ctx s a bal k).1 = (sudt_get_balance E ctx s a bal h).1 ∧
    (sudt_get_balance E ctx s a bal k).2.1 = (sudt_get_balance E ctx s a bal h).2.1 := by
  rw [sudt_get_balance_eq_run, sudt_get_balance_eq_run]
  unfold get_balance_run ensure_ret
  rw [hf, hs, hkv]
  simp only []
  split_ifs <;> exact ⟨rfl, rfl⟩

/-! ## Claims about the ledger -/

/-- C1: for a ledger `s`, holders `a ≠ b` and an amount `m`, in a host state
where `s`, `a` and `b` have a non-zero script hash, every host call succeeds,
the balance of `a` is at least `m` and the balance of `b` plus `m` is below
`2 ^ 128`, `sudt_transfer` returns 0 and `sudt_get_balance` afterwards returns 0
and yields the old balance of `a` minus `m` for `a` and the old balance of `b`
plus `m` for `b`. The key builder of the absent `common.h` is a parameter; the
two balance slots are the distinct raw keys it gives for the two holders. -/
theorem sudt_transfer_moves_amount (E : Env) (ctx : gw_context_t) (s a b m : Nat) (h : Host)
    (hab : a ≠ b)
    (hs : ¬ is_zero_hash (h.script_hash s))
    (ha : ¬ is_zero_hash (h.script_hash a))
    (hb : ¬ is_zero_hash (h.script_hash b))
    (hok : ∀ c, h.fault c = 0)
    (hkey : E.gw_build_account_key s (balance_key a) ≠ E.gw_build_account_key s (balance_key b))
    (hm : m ≤ (sudt_get_balance E ctx s a 0 h).2.1)
    (hov : (sudt_get_balance E ctx s b 0 h).2.1 + m < 2 ^ 128) :
    (sudt_transfer E ctx s a b m h).1 = 0 ∧
    (sudt_get_balance E ctx s a 0 (sudt_transfer E ctx s a b m h).2).1 = 0 ∧
    (sudt_get_balance E ctx s a 0 (sudt_transfer E ctx s a b m h).2).2.1
      = (sudt_get_balance E ctx s a 0 h).2.1 - m ∧
    (sudt_get_balance E ctx s b 0 (sudt_transfer E ctx s a b m h).2).1 = 0 ∧
    (sudt_get_balance E ctx s b 0 (sudt_transfer E ctx s a b m h).2).2.1
      = (sudt_get_balance E ctx s b 0 h).2.1 + m := by
  have es : ensure_ret E h s = 0 := by simp [ensure_ret, hok, hs]
  have ga : sudt_get_balance E ctx s a 0 h =
      (0, read_u128 (h.kv (E.gw_build_account_key s (balance_key a))),
        h.after [lookup a, lookup s, .LOAD (E.gw_build_account_key s (balance_key a))]) := by
    simp [sudt_get_balance_eq_run, get_balance_run, hok, ha, es]
  have gb : sudt_get_balance E ctx s b 0 h =
      (0, read_u128 (h.kv (E.gw_build_account_key s (balance_key b))),
        h.after [lookup b, lookup s, .LOAD (E.gw_build_account_key s (balance_key b))]) := by
    simp [sudt_get_balance_eq_run, get_balance_run, hok, hb, es]
  rw [ga] at hm
  rw [gb] at hov
  rw [ga, gb]
  simp only at hm hov ⊢
  have hfa := read_u128_lt (h.kv (E.gw_build_account_key s (balance_key a)))
  have hsz : u128_size = 2 ^ 128 := rfl
  have hnov : ¬ (read_u128 (h.kv (E.gw_build_account_key s (balance_key b))) + m) % u128_size
      < read_u128 (h.kv (E.gw_build_account_key s (balance_key b))) := by
    rw [Nat.mod_eq_of_lt (by omega)]
    omega
  have hnm : ¬ read_u128 (h.kv (E.gw_build_account_key s (balance_key a))) < m := by omega
  have hrun : sudt_transfer E ctx s a b m h = (0,
      ((h.after [lookup a, lookup b, lookup s, .LOAD (E.gw_build_account_key s (balance_key a)),
        lookup s, .LOAD (E.gw_build_account_key s (balance_key b)), lookup s,
        .STORE (E.gw_build_account_key s (balance_key a)) (write_u128 zero32
          (read_u128 (h.kv (E.gw_build_account_key s (balance_key a))) - m)),
        lookup s,
        .STORE (E.gw_build_account_key s (balance_key b)) (write_u128 zero32
          ((read_u128 (h.kv (E.gw_build_account_key s (balance_key b))) + m) % u128_size)),
        lookup s,
        .LOG s E.GW_LOG_SUDT_OPERATION 25
          ([0] ++ le_bytes 4 a ++ le_bytes 4 b ++ le_bytes 16 m)]).put
        (E.gw_build_account_key s (balance_key a)) (write_u128 zero32
          (read_u128 (h.kv (E.gw_build_account_key s (balance_key a))) - m))).put
        (E.gw_build_account_key s (balance_key b)) (write_u128 zero32
          ((read_u128 (h.kv (E.gw_build_account_key s (balance_key b))) + m) % u128_size))) := by
    rw [sudt_transfer_eq_run]
    simp [transfer_run, hab, hok, ha, hb, es, hnm, hnov]
  rw [hrun]
  have hkey2 := Ne.symm hkey
  simp only [sudt_get_balance_eq_run, get_balance_run, Host.put_fault, Host.after_fault, hok,
    Host.put_script_hash, Host.after_script_hash, ha, hb, ensure_ret_put, ensure_ret_after, es,
    Host.put_kv, Host.after_kv, hkey, hkey2, read_u128_write_u128, ne_eq, not_true_eq_false,
    or_self, if_false, if_true, true_and]
  have h1 : (read_u128 (h.kv (E.gw_build_account_key s (balance_key b))) + m) % u128_size
      = read_u128 (h.kv (E.gw_build_account_key s (balance_key b))) + m :=
    Nat.mod_eq_of_lt (by omega)
  constructor
  · exact Nat.mod_eq_of_lt (by omega)
  · rw [h1, h1]

/-- C1 at ledger 5, holders 1 and 2, balances 100 and 0, amount 40: the transfer
returns 0 and the balances read afterwards are 60 and 40. -/
theorem sudt_transfer_moves_amount_witness :
    (sudt_transfer exampleEnv exampleCtx 5 1 2 40 exampleHost).1 = 0 ∧
    (sudt_get_balance exampleEnv exampleCtx 5 1 0
      (sudt_transfer exampleEnv exampleCtx 5 1 2 40 exampleHost).2).1 = 0 ∧
    (sudt_get_balance exampleEnv exampleCtx 5 1 0
      (sudt_transfer exampleEnv exampleCtx 5 1 2 40 exampleHost).2).2.1 = 60 ∧
    (sudt_get_balance exampleEnv exampleCtx 5 2 0
      (sudt_transfer exampleEnv exampleCtx 5 1 2 40 exampleHost).2).1 = 0 ∧
    (sudt_get_balance exampleEnv exampleCtx 5 2 0
      (sudt_transfer exampleEnv exampleCtx 5 1 2 40 exampleHost).2).2.1 = 40 :=
  sudt_transfer_moves_amount exampleEnv exampleCtx 5 1 2 40 exampleHost (by decide) (by decide)
    (by decide) (by decide) (fun _ => rfl) (by decide) (by decide) (by decide)

/-- C4: `sudt_transfer(ledger, a, a, m)` returns `ERROR_TO_ID` (14) for every
context, ledger id, account id, amount and host state, and the host state,
call record included, is what it was: no lookup, load, store or log is issued. -/
theorem sudt_transfer_self (E : Env) (ctx : gw_context_t) (sudt_id a amount : Nat) (h : Host) :
    sudt_transfer E ctx sudt_id a a amount h = (ERROR_TO_ID, h) ∧ ERROR_TO_ID = 14 := by
  constructor
  · simp [sudt_transfer]
  · rfl

/-- C2: for a ledger `s`, existing holders `a ≠ b` and an amount `m` above the
balance of `a` (the balance `sudt_get_balance` reads for `a`, the read
succeeding), `sudt_transfer` returns `ERROR_INSUFFICIENT_BALANCE` (12), none of
the calls it issues is a store or a log, the storage is unchanged, and
`sudt_get_balance` gives for `a` and for `b` the same code and balance after as
before. -/
theorem sudt_transfer_insufficient (E : Env) (ctx : gw_context_t) (s a b m : Nat) (h : Host)
    (hab : a ≠ b)
    (ha : ¬ is_zero_hash (h.script_hash a))
    (hfb : h.fault (lookup b) = 0) (hb : ¬ is_zero_hash (h.script_hash b))
    (hread : (sudt_get_balance E ctx s a 0 h).1 = 0)
    (hm : (sudt_get_balance E ctx s a 0 h).2.1 < m) :
    (sudt_transfer E ctx s a b m h).1 = ERROR_INSUFFICIENT_BALANCE ∧
    ERROR_INSUFFICIENT_BALANCE = 12 ∧
    (∀ ev ∈ issued h (sudt_transfer E ctx s a b m h).2,
      ev.call.isStore = false ∧ ev.call.isLog = false) ∧
    (sudt_transfer E ctx s a b m h).2.kv = h.kv ∧
    (sudt_get_balance E ctx s a 0 (sudt_transfer E ctx s a b m h).2).1
      = (sudt_get_balance E ctx s a 0 h).1 ∧
    (sudt_get_balance E ctx s a 0 (sudt_transfer E ctx s a b m h).2).2.1
      = (sudt_get_balance E ctx s a 0 h).2.1 ∧
    (sudt_get_balance E ctx s b 0 (sudt_transfer E ctx s a b m h).2).1
      = (sudt_get_balance E ctx s b 0 h).1 ∧
    (sudt_get_balance E ctx s b 0 (sudt_transfer E ctx s a b m h).2).2.1
      = (sudt_get_balance E ctx s b 0 h).2.1 := by
  have hfa : h.fault (lookup a) = 0 := by
    by_contra hc
    simp [sudt_get_balance_eq_run, get_balance_run, hc, ERROR_ACCOUNT_NOT_EXISTS] at hread
  have es : ensure_ret E h s = 0 := by
    by_contra hc
    simp [sudt_get_balance_eq_run, get_balance_run, hfa, ha, hc] at hread
  have hl : h.fault (.LOAD (E.gw_build_account_key s (balance_key a))) = 0 := by
    by_contra hc
    simp [sudt_get_balance_eq_run, get_balance_run, hfa, ha, es, hc] at hread
  have hm2 : read_u128 (h.kv (E.gw_build_account_key s (balance_key a))) < m := by
    simpa [sudt_get_balance_eq_run, get_balance_run, hfa, ha, es, hl] using hm
  have hrun : sudt_transfer E ctx s a b m h = (ERROR_INSUFFICIENT_BALANCE,
      h.after [lookup a, lookup b, lookup s, .LOAD (E.gw_build_account_key s (balance_key a))]) := by
    rw [sudt_transfer_eq_run]
    simp [transfer_run, hab, hfa, ha, hfb, hb, es, hl, hm2]
  rw [hrun]
  refine ⟨rfl, rfl, ?_, rfl, ?_, ?_, ?_, ?_⟩
  · simp [Syscall.isStore, Syscall.isLog]
  · exact (sudt_get_balance_congr E ctx s a 0 h (h.after _) rfl rfl rfl).1
  · exact (sudt_get_balance_congr E ctx s a 0 h (h.after _) rfl rfl rfl).2
  · exact (sudt_get_balance_congr E ctx s b 0 h (h.after _) rfl rfl rfl).1
  · exact (sudt_get_balance_congr E ctx s b 0 h (h.after _) rfl rfl rfl).2

/-- C2 at ledger 5, holders 1 and 2, balance 100, amount 200: the transfer
returns 12 and the balances read afterwards are still 100 and 0. -/
theorem sudt_transfer_insufficient_witness :
    (sudt_transfer exampleEnv exampleCtx 5 1 2 200 exampleHost).1 = 12 ∧
    (sudt_transfer exampleEnv exampleCtx 5 1 2 200 exampleHost).2.kv = exampleHost.kv ∧
    (sudt_get_balance exampleEnv exampleCtx 5 1 0
      (sudt_transfer exampleEnv exampleCtx 5 1 2 200 exampleHost).2).2.1 = 100 ∧
    (sudt_get_balance exampleEnv exampleCtx 5 2 0
      (sudt_transfer exampleEnv exampleCtx 5 1 2 200 exampleHost).2).2.1 = 0 :=
  have w := sudt_transfer_insufficient exampleEnv exampleCtx 5 1 2 200 exampleHost (by decide)
    (by decide) (by decide) (by decide) (by decide) (by decide)
  ⟨w.1, w.2.2.2.1, w.2.2.2.2.2.1, w.2.2.2.2.2.2.2⟩

/-- C3: for a ledger `s` and holders `a ≠ b` that exist, every host call
succeeding, and an amount `m` not above the balance of `a`: `sudt_transfer`
returns `ERROR_AMOUNT_OVERFLOW` (13) exactly when the balance of `b` plus `m` is
at least `2 ^ 128`, and then none of the calls it issues is a store or a log,
the storage is unchanged and `sudt_get_balance` gives for `a` and `b` the same
balances as before. -/
theorem sudt_transfer_overflow_iff (E : Env) (ctx : gw_context_t) (s a b m : Nat) (h : Host)
    (hab : a ≠ b)
    (hs : ¬ is_zero_hash (h.script_hash s))
    (ha : ¬ is_zero_hash (h.script_hash a))
    (hb : ¬ is_zero_hash (h.script_hash b))
    (hok : ∀ c, h.fault c = 0)
    (hm : m ≤ (sudt_get_balance E ctx s a 0 h).2.1) :
    ((sudt_transfer E ctx s a b m h).1 = ERROR_AMOUNT_OVERFLOW ↔
      2 ^ 128 ≤ (sudt_get_balance E ctx s b 0 h).2.1 + m) ∧
    ERROR_AMOUNT_OVERFLOW = 13 ∧
    (2 ^ 128 ≤ (sudt_get_balance E ctx s b 0 h).2.1 + m →
      (∀ ev ∈ issued h (sudt_transfer E ctx s a b m h).2,
        ev.call.isStore = false ∧ ev.call.isLog = false) ∧
      (sudt_transfer E ctx s a b m h).2.kv = h.kv ∧
      (sudt_get_balance E ctx s a 0 (sudt_transfer E ctx s a b m h).2).2.1
        = (sudt_get_balance E ctx s a 0 h).2.1 ∧
      (sudt_get_balance E ctx s b 0 (sudt_transfer E ctx s a b m h).2).2.1
        = (sudt_get_balance E ctx s b 0 h).2.1) := by
  have es : ensure_ret E h s = 0 := by simp [ensure_ret, hok, hs]
  have ga : (sudt_get_balance E ctx s a 0 h).2.1 =
      read_u128 (h.kv (E.gw_build_account_key s (balance_key a))) := by
    simp [sudt_get_balance_eq_run, get_balance_run, hok, ha, es]
  have gb : (sudt_get_balance E ctx s b 0 h).2.1 =
      read_u128 (h.kv (E.gw_build_account_key s (balance_key b))) := by
    simp [sudt_get_balance_eq_run, get_balance_run, hok, hb, es]
  rw [ga] at hm
  rw [gb]
  have hfa := read_u128_lt (h.kv (E.gw_build_account_key s (balance_key a)))
  have hfb := read_u128_lt (h.kv (E.gw_build_account_key s (balance_key b)))
  have hsz : u128_size = 2 ^ 128 := rfl
  have hnm : ¬ read_u128 (h.kv (E.gw_build_account_key s (balance_key a))) < m := by omega
  by_cases hov : 2 ^ 128 ≤ read_u128 (h.kv (E.gw_build_account_key s (balance_key b))) + m
  · have hwrap : (read_u128 (h.kv (E.gw_build_account_key s (balance_key b))) + m) % u128_size
        < read_u128 (h.kv (E.gw_build_account_key s (balance_key b))) := by
      have h1 : (read_u128 (h.kv (E.gw_build_account_key s (balance_key b))) + m) % u128_size
          = read_u128 (h.kv (E.gw_build_account_key s (balance_key b))) + m - u128_size := by
        rw [Nat.mod_eq_sub_mod (by omega), Nat.mod_eq_of_lt (by omega)]
      omega
    have hrun : sudt_transfer E ctx s a b m h = (ERROR_AMOUNT_OVERFLOW,
        h.after [lookup a, lookup b, lookup s, .LOAD (E.gw_build_account_key s (balance_key a)),
          lookup s, .LOAD (E.gw_build_account_key s (balance_key b))]) := by
      rw [sudt_transfer_eq_run]
      simp [transfer_run, hab, hok, ha, hb, es, hnm, hwrap]
    rw [hrun]
    refine ⟨⟨fun _ => hov, fun _ => rfl⟩, rfl, fun _ => ⟨?_, rfl, ?_, ?_⟩⟩
    · simp [Syscall.isStore, Syscall.isLog]
    · exact (sudt_get_balance_congr E ctx s a 0 h (h.after _) rfl rfl rfl).2
    · rw [← gb]
      exact (sudt_get_balance_congr E ctx s b 0 h (h.after _) rfl rfl rfl).2
  · have hnw : ¬ (read_u128 (h.kv (E.gw_build_account_key s (balance_key b))) + m) % u128_size
        < read_u128 (h.kv (E.gw_build_account_key s (balance_key b))) := by
      rw [Nat.mod_eq_of_lt (by omega)]
      omega
    have hrun : (sudt_transfer E ctx s a b m h).1 = 0 := by
      rw [sudt_transfer_eq_run]
      simp [transfer_run, hab, hok, ha, hb, es, hnm, hnw]
    rw [hrun]
    refine ⟨⟨fun hc => ?_, fun hc => absurd hc hov⟩, rfl, fun hc => absurd hc hov⟩
    simp [ERROR_AMOUNT_OVERFLOW] at hc

/-- C3 at ledger 5, holders 1 and 2 with balances 100 and `2 ^ 128 - 1`, amount
40: the transfer returns 13 and the storage is unchanged. -/
theorem sudt_transfer_overflow_iff_witness :
    (sudt_transfer exampleEnv exampleCtx 5 1 2 40 fullHost).1 = 13 ∧
    (sudt_transfer exampleEnv exampleCtx 5 1 2 40 fullHost).2.kv = fullHost.kv :=
  have w := sudt_transfer_overflow_iff exampleEnv exampleCtx 5 1 2 40 fullHost (by decide)
    (by decide) (by decide) (by decide) (fun _ => rfl) (by decide)
  ⟨w.1.2 (by decide), (w.2.2 (by decide)).2.1⟩

/-- C7: for holders `a ≠ b`, if the script hash of `a` or of `b` is all-zero,
`sudt_transfer` returns `ERROR_ACCOUNT_NOT_EXISTS` (15), none of the calls it
issues is a load, a store or a log (no balance is read or written), the storage
is unchanged and every balance reads as before. -/
theorem sudt_transfer_account_missing (E : Env) (ctx : gw_context_t) (s a b m : Nat) (h : Host)
    (hab : a ≠ b)
    (hz : is_zero_hash (h.script_hash a) ∨ is_zero_hash (h.script_hash b)) :
    (sudt_transfer E ctx s a b m h).1 = ERROR_ACCOUNT_NOT_EXISTS ∧
    ERROR_ACCOUNT_NOT_EXISTS = 15 ∧
    (∀ ev ∈ issued h (sudt_transfer E ctx s a b m h).2,
      ev.call.isLoad = false ∧ ev.call.isStore = false ∧ ev.call.isLog = false) ∧
    (sudt_transfer E ctx s a b m h).2.kv = h.kv ∧
    (∀ c, (sudt_get_balance E ctx s c 0 (sudt_transfer E ctx s a b m h).2).1
        = (sudt_get_balance E ctx s c 0 h).1 ∧
      (sudt_get_balance E ctx s c 0 (sudt_transfer E ctx s a b m h).2).2.1
        = (sudt_get_balance E ctx s c 0 h).2.1) := by
  have hrun : sudt_transfer E ctx s a b m h = (ERROR_ACCOUNT_NOT_EXISTS, h.after [lookup a]) ∨
      sudt_transfer E ctx s a b m h = (ERROR_ACCOUNT_NOT_EXISTS, h.after [lookup a, lookup b]) := by
    rw [sudt_transfer_eq_run]
    by_cases c1 : h.fault (lookup a) ≠ 0 ∨ is_zero_hash (h.script_hash a)
    · left
      simp only [transfer_run, if_neg hab, if_pos c1]
    · right
      have hzb : is_zero_hash (h.script_hash b) := by tauto
      simp only [transfer_run, if_neg hab, if_neg c1, if_pos (Or.inr hzb)]
  rcases hrun with hrun | hrun <;> rw [hrun] <;>
    refine ⟨rfl, rfl, ?_, rfl, fun c => sudt_get_balance_congr E ctx s c 0 h (h.after _) rfl rfl rfl⟩ <;>
    simp [Syscall.isLoad, Syscall.isStore, Syscall.isLog, lookup]

/-- C7 at holders 1 (existing) and 3 (script hash all-zero): the transfer
returns 15 and the storage is unchanged. -/
theorem sudt_transfer_account_missing_witness :
    (sudt_transfer exampleEnv exampleCtx 5 1 3 40 exampleHost).1 = 15 ∧
    (sudt_transfer exampleEnv exampleCtx 5 1 3 40 exampleHost).2.kv = exampleHost.kv :=
  have w := sudt_transfer_account_missing exampleEnv exampleCtx 5 1 3 40 exampleHost (by decide)
    (Or.inr (by decide))
  ⟨w.1, w.2.2.2.1⟩

/-- C10: when `sudt_transfer(s, from, to, m)` returns 0, exactly one of the
calls it issued is a log; it is the last call, after the two stores (first the
balance slot of `from`, then that of `to`), and it carries the subject `s`, the
service flag `GW_LOG_SUDT_OPERATION`, the length 25 and the 25-byte payload made
of the byte 0, the 4 little-endian bytes of `from`, the 4 of `to` and the 16 of
the amount. -/
theorem sudt_transfer_log (E : Env) (ctx : gw_context_t) (s a b m : Nat) (h : Host)
    (hsucc : (sudt_transfer E ctx s a b m h).1 = 0) :
    (issued h (sudt_transfer E ctx s a b m h).2).filter (fun ev => ev.call.isLog)
      = [⟨.LOG s E.GW_LOG_SUDT_OPERATION 25
          ([0] ++ le_bytes 4 a ++ le_bytes 4 b ++ le_bytes 16 m), 0⟩] ∧
    (issued h (sudt_transfer E ctx s a b m h).2).getLast?
      = some ⟨.LOG s E.GW_LOG_SUDT_OPERATION 25
          ([0] ++ le_bytes 4 a ++ le_bytes 4 b ++ le_bytes 16 m), 0⟩ ∧
    ((issued h (sudt_transfer E ctx s a b m h).2).filter (fun ev => ev.call.isStore)).map
        (fun ev => ev.call)
      = [.STORE (E.gw_build_account_key s (balance_key a))
          (write_u128 zero32 ((sudt_get_balance E ctx s a 0 h).2.1 - m)),
         .STORE (E.gw_build_account_key s (balance_key b))
          (write_u128 zero32 ((sudt_get_balance E ctx s b 0 h).2.1 + m))] ∧
    ([0] ++ le_bytes 4 a ++ le_bytes 4 b ++ le_bytes 16 m).length = 25 := by
  obtain ⟨hp, hlog⟩ := passes_of_sudt_transfer_zero E ctx s a b m h hsucc
  rw [sudt_transfer_of_passes E ctx s a b m h hp]
  obtain ⟨c0, ⟨f1, z1⟩, ⟨f2, z2⟩, c3, c4, c5, c6, c7, c8, c9⟩ := hp
  have hsz : u128_size = 2 ^ 128 := rfl
  have hfa := read_u128_lt (h.kv (E.gw_build_account_key s (balance_key a)))
  have hfb := read_u128_lt (h.kv (E.gw_build_account_key s (balance_key b)))
  have hnov : (read_u128 (h.kv (E.gw_build_account_key s (balance_key b))) + m) % u128_size
      = read_u128 (h.kv (E.gw_build_account_key s (balance_key b))) + m := by
    have := (wrap_lt_iff _ m hfb (by omega)).not.1 c7
    exact Nat.mod_eq_of_lt (by omega)
  have ga : (sudt_get_balance E ctx s a 0 h).2.1 =
      read_u128 (h.kv (E.gw_build_account_key s (balance_key a))) := by
    simp [sudt_get_balance_eq_run, get_balance_run, f1, z1, c3, c4]
  have gb : (sudt_get_balance E ctx s b 0 h).2.1 =
      read_u128 (h.kv (E.gw_build_account_key s (balance_key b))) := by
    simp [sudt_get_balance_eq_run, get_balance_run, f2, z2, c3, c6]
  rw [ga, gb, ← hnov]
  refine ⟨?_, ?_, ?_, ?_⟩
  · simp [transfer_calls, Syscall.isLog, lookup]
    simpa using hlog
  · simp [transfer_calls]
    simpa using hlog
  · simp [transfer_calls, Syscall.isStore, lookup]
  · simp [le_bytes_length]

/-- C10 at ledger 5, from 1, to 2, amount 40: the last call of the successful
transfer is the log with the 25 bytes `00 | 01 00 00 00 | 02 00 00 00 | 28 00 ...`. -/
theorem sudt_transfer_log_witness :
    (issued exampleHost (sudt_transfer exampleEnv exampleCtx 5 1 2 40 exampleHost).2).getLast?
      = some ⟨.LOG 5 1 25
          [0, 1, 0, 0, 0, 2, 0, 0, 0, 40, 0, 0, 0, 0, 0, 0, 0, 0, 0, 0, 0, 0, 0, 0, 0], 0⟩ :=
  (sudt_transfer_log exampleEnv exampleCtx 5 1 2 40 exampleHost (by decide)).2.1

/-- C8: `sudt_get_balance(s, a)` returns `ERROR_ACCOUNT_NOT_EXISTS` (15) when
the script hash of `a` is all-zero. When it is not, the lookups succeed, the
ledger `s` exists and the host load succeeds, it returns 0 and the balance is
the little-endian integer of the low 16 bytes of the value the host holds for
ledger `s` under the key made of the 4 bytes of `a` and 28 zero bytes, as a
128-bit value; the bytes from the 17th on play no part, and for a value made of
bytes the 128-bit reduction changes nothing. -/
theorem sudt_get_balance_reads_low_half (E : Env) (ctx : gw_context_t) (s a bal : Nat)
    (h : Host) :
    (is_zero_hash (h.script_hash a) →
      (sudt_get_balance E ctx s a bal h).1 = ERROR_ACCOUNT_NOT_EXISTS) ∧
    ERROR_ACCOUNT_NOT_EXISTS = 15 ∧
    (¬ is_zero_hash (h.script_hash a) → h.fault (lookup a) = 0 →
      ¬ is_zero_hash (h.script_hash s) → h.fault (lookup s) = 0 →
      h.fault (.LOAD (E.gw_build_account_key s (le_bytes 4 a ++ List.replicate 28 0))) = 0 →
      (sudt_get_balance E ctx s a bal h).1 = 0 ∧
      (sudt_get_balance E ctx s a bal h).2.1 =
        le_value ((h.kv (E.gw_build_account_key s (le_bytes 4 a ++ List.replicate 28 0))).take 16)
          % 2 ^ 128 ∧
      ((∀ x ∈ h.kv (E.gw_build_account_key s (le_bytes 4 a ++ List.replicate 28 0)), x < 256) →
        (sudt_get_balance E ctx s a bal h).2.1 =
          le_value
            ((h.kv (E.gw_build_account_key s (le_bytes 4 a ++ List.replicate 28 0))).take 16))) := by
  refine ⟨fun hz => ?_, rfl, fun hz hf hs hfs hl => ?_⟩
  · simp [sudt_get_balance_eq_run, get_balance_run, hz]
  · rw [← balance_key_bytes] at hl ⊢
    have es : ensure_ret E h s = 0 := by simp [ensure_ret, hfs, hs]
    have hrun : sudt_get_balance E ctx s a bal h =
        (0, read_u128 (h.kv (E.gw_build_account_key s (balance_key a))),
          h.after [lookup a, lookup s, .LOAD (E.gw_build_account_key s (balance_key a))]) := by
      simp [sudt_get_balance_eq_run, get_balance_run, hz, hf, es, hl]
    rw [hrun]
    refine ⟨rfl, rfl, fun hbytes => ?_⟩
    show read_u128 _ = _
    unfold read_u128 u128_size
    apply Nat.mod_eq_of_lt
    have hlt := le_value_lt ((h.kv (E.gw_build_account_key s (balance_key a))).take 16)
      (fun x hx => hbytes x (List.mem_of_mem_take hx))
    have hlen : ((h.kv (E.gw_build_account_key s (balance_key a))).take 16).length ≤ 16 := by
      simp
    calc le_value ((h.kv (E.gw_build_account_key s (balance_key a))).take 16)
        < 256 ^ ((h.kv (E.gw_build_account_key s (balance_key a))).take 16).length := hlt
      _ ≤ 256 ^ 16 := Nat.pow_le_pow_right (by norm_num) hlen
      _ = 2 ^ 128 := by norm_num

/-- C8 on the example host: the balance of the missing account 3 cannot be read
(15), and the balance of holder 1 in ledger 5 reads 100. -/
theorem sudt_get_balance_reads_low_half_witness :
    (sudt_get_balance exampleEnv exampleCtx 5 3 0 exampleHost).1 = 15 ∧
    (sudt_get_balance exampleEnv exampleCtx 5 1 0 exampleHost).1 = 0 ∧
    (sudt_get_balance exampleEnv exampleCtx 5 1 0 exampleHost).2.1 = 100 :=
  ⟨(sudt_get_balance_reads_low_half exampleEnv exampleCtx 5 3 0 exampleHost).1 (by decide),
   ((sudt_get_balance_reads_low_half exampleEnv exampleCtx 5 1 0 exampleHost).2.2 (by decide)
      (by decide) (by decide) (by decide) (by decide)).1,
   ((sudt_get_balance_reads_low_half exampleEnv exampleCtx 5 1 0 exampleHost).2.2 (by decide)
      (by decide) (by decide) (by decide) (by decide)).2.1⟩

/-! ## Claims about the gateway -/

/-- C5: with a non-null context, `GW_ERROR_ACCOUNT_NOT_FOUND` non-zero and the
script-hash lookup of the account succeeding: if the 32 bytes of the hash are
all zero, `sys_load`, `sys_store`, `sys_load_nonce` and `sys_log` return
`GW_ERROR_ACCOUNT_NOT_FOUND`, the lookup is the only call they issue and the
storage is unchanged; if one of the 32 bytes is non-zero, each of them issues
its `GW_SYS_LOAD`, `GW_SYS_STORE` or `GW_SYS_LOG` call after the lookup and
returns the code of that call. -/
theorem gateway_existence_check (E : Env) (ctx : gw_context_t) (account_id : Nat)
    (key value data : Bytes) (service_flag data_length : Nat) (h : Host)
    (hne : E.GW_ERROR_ACCOUNT_NOT_FOUND ≠ 0) (hf : h.fault (lookup account_id) = 0) :
    (is_zero_hash (h.script_hash account_id) →
      ((sys_load E (some ctx) account_id key value h).1 = E.GW_ERROR_ACCOUNT_NOT_FOUND ∧
        issued h (sys_load E (some ctx) account_id key value h).2.2 = [⟨lookup account_id, 0⟩] ∧
        (sys_load E (some ctx) account_id key value h).2.2.kv = h.kv) ∧
      ((sys_store E (some ctx) account_id key value h).1 = E.GW_ERROR_ACCOUNT_NOT_FOUND ∧
        issued h (sys_store E (some ctx) account_id key value h).2 = [⟨lookup account_id, 0⟩] ∧
        (sys_store E (some ctx) account_id key value h).2.kv = h.kv) ∧
      ((sys_load_nonce E (some ctx) account_id value h).1 = E.GW_ERROR_ACCOUNT_NOT_FOUND ∧
        issued h (sys_load_nonce E (some ctx) account_id value h).2.2
          = [⟨lookup account_id, 0⟩] ∧
        (sys_load_nonce E (some ctx) account_id value h).2.2.kv = h.kv) ∧
      ((sys_log E (some ctx) account_id service_flag data_length data h).1
          = E.GW_ERROR_ACCOUNT_NOT_FOUND ∧
        issued h (sys_log E (some ctx) account_id service_flag data_length data h).2
          = [⟨lookup account_id, 0⟩] ∧
        (sys_log E (some ctx) account_id service_flag data_length data h).2.kv = h.kv)) ∧
    (¬ is_zero_hash (h.script_hash account_id) →
      ((sys_load E (some ctx) account_id key value h).1
          = h.fault (.LOAD (E.gw_build_account_key account_id key)) ∧
        issued h (sys_load E (some ctx) account_id key value h).2.2
          = [⟨lookup account_id, 0⟩,
             ⟨.LOAD (E.gw_build_account_key account_id key),
              h.fault (.LOAD (E.gw_build_account_key account_id key))⟩]) ∧
      ((sys_store E (some ctx) account_id key value h).1
          = h.fault (.STORE (E.gw_build_account_key account_id key) value) ∧
        issued h (sys_store E (some ctx) account_id key value h).2
          = [⟨lookup account_id, 0⟩,
             ⟨.STORE (E.gw_build_account_key account_id key) value,
              h.fault (.STORE (E.gw_build_account_key account_id key) value)⟩]) ∧
      ((sys_load_nonce E (some ctx) account_id value h).1
          = h.fault (.LOAD (E.gw_build_nonce_key account_id)) ∧
        issued h (sys_load_nonce E (some ctx) account_id value h).2.2
          = [⟨lookup account_id, 0⟩,
             ⟨.LOAD (E.gw_build_nonce_key account_id),
              h.fault (.LOAD (E.gw_build_nonce_key account_id))⟩]) ∧
      ((sys_log E (some ctx) account_id service_flag data_length data h).1
          = h.fault (.LOG account_id service_flag data_length data) ∧
        issued h (sys_log E (some ctx) account_id service_flag data_length data h).2
          = [⟨lookup account_id, 0⟩,
             ⟨.LOG account_id service_flag data_length data,
              h.fault (.LOG account_id service_flag data_length data)⟩])) := by
  constructor
  · intro hz
    have e : ensure_ret E h account_id = E.GW_ERROR_ACCOUNT_NOT_FOUND := by
      simp [ensure_ret, hf, hz]
    simp [sys_load_eq, sys_store_eq, sys_load_nonce_eq, sys_log_eq, e, hne, hf]
  · intro hz
    have e : ensure_ret E h account_id = 0 := by
      simp [ensure_ret, hf, hz]
    simp only [sys_load_eq, sys_store_eq, sys_load_nonce_eq, sys_log_eq, e]
    refine ⟨⟨?_, ?_⟩, ⟨?_, ?_⟩, ⟨?_, ?_⟩, ?_, ?_⟩ <;> split_ifs <;> simp_all

/-- C5 on the example host: account 3 has an all-zero script hash, so `sys_load`
and `sys_log` on it return `GW_ERROR_ACCOUNT_NOT_FOUND` (49 in the example
values); account 1 exists, so `sys_store` on it issues the store. -/
theorem gateway_existence_check_witness :
    (sys_load exampleEnv (some exampleCtx) 3 (balance_key 1) zero32 exampleHost).1 = 49 ∧
    (sys_log exampleEnv (some exampleCtx) 3 1 2 [0, 0] exampleHost).1 = 49 ∧
    issued exampleHost (sys_store exampleEnv (some exampleCtx) 1 (balance_key 1) zero32
      exampleHost).2
      = [⟨lookup 1, 0⟩,
         ⟨.STORE (exampleEnv.gw_build_account_key 1 (balance_key 1)) zero32, 0⟩] :=
  ⟨((gateway_existence_check exampleEnv exampleCtx 3 (balance_key 1) zero32 [0, 0] 1 2
      exampleHost (by decide) (by decide)).1 (by decide)).1.1,
   ((gateway_existence_check exampleEnv exampleCtx 3 (balance_key 1) zero32 [0, 0] 1 2
      exampleHost (by decide) (by decide)).1 (by decide)).2.2.2.1,
   ((gateway_existence_check exampleEnv exampleCtx 1 (balance_key 1) zero32 [0, 0] 1 2
      exampleHost (by decide) (by decide)).2 (by decide)).2.1.2⟩

/-! ## Host error codes -/

/-- C6, as stated, fails: on a host whose script-hash lookup of account 1 fails
with code 7, that failing call is issued during `sudt_get_balance(5, 1)` and
during `sudt_transfer(5, 1, 2, 40)`, and both return 15, not 7. -/
theorem host_error_not_propagated :
    (⟨lookup 1, 7⟩ ∈ issued faultyHost (sudt_get_balance exampleEnv exampleCtx 5 1 0 faultyHost).2.2 ∧
      (sudt_get_balance exampleEnv exampleCtx 5 1 0 faultyHost).1 = 15) ∧
    (⟨lookup 1, 7⟩ ∈ issued faultyHost (sudt_transfer exampleEnv exampleCtx 5 1 2 40 faultyHost).2 ∧
      (sudt_transfer exampleEnv exampleCtx 5 1 2 40 faultyHost).1 = 15) := by
  decide

theorem gateway_error_aux (E : Env) (h : Host) (account_id : Nat) (c : Syscall) (ev : Event)
    (hev : ev.ret ≠ 0)
    (hmem : ev ∈ issued h (if ensure_ret E h account_id ≠ 0 then h.after [lookup account_id]
      else h.after [lookup account_id, c])) :
    (if ensure_ret E h account_id ≠ 0 then ensure_ret E h account_id else h.fault c) = ev.ret := by
  unfold ensure_ret at hmem ⊢
  by_cases hf : h.fault (lookup account_id) = 0
  · by_cases hz : is_zero_hash (h.script_hash account_id)
    · by_cases hn : E.GW_ERROR_ACCOUNT_NOT_FOUND = 0
      · simp [hf, hz, hn] at hmem ⊢
        rcases hmem with rfl | rfl
        · exact absurd rfl hev
        · rfl
      · simp [hf, hz, hn] at hmem ⊢
        subst hmem
        exact absurd rfl hev
    · simp [hf, hz] at hmem ⊢
      rcases hmem with rfl | rfl
      · exact absurd rfl hev
      · rfl
  · simp [hf] at hmem ⊢
    subst hmem
    rfl

theorem failing_event_last (h : Host) (cs : List Syscall) (c : Syscall) (ev : Event)
    (hev : ev.ret ≠ 0) (hcs : ∀ d ∈ cs, h.fault d = 0)
    (hmem : ev ∈ (cs ++ [c]).map (fun d => (⟨d, h.fault d⟩ : Event))) :
    h.fault c = ev.ret := by
  obtain ⟨d, hd, rfl⟩ := List.mem_map.1 hmem
  rcases List.mem_append.1 hd with hd | hd
  · exact absurd (hcs d hd) hev
  · rw [List.mem_singleton.1 hd]

theorem no_failing_event (h : Host) (cs : List Syscall) (ev : Event)
    (hev : ev.ret ≠ 0) (hcs : ∀ d ∈ cs, h.fault d = 0)
    (hmem : ev ∈ cs.map (fun d => (⟨d, h.fault d⟩ : Event))) : False := by
  obtain ⟨d, hd, rfl⟩ := List.mem_map.1 hmem
  exact hev (hcs d hd)

theorem ensure_ret_zero_fault (E : Env) (h : Host) (s : Nat) (he : ensure_ret E h s = 0) :
    h.fault (lookup s) = 0 := by
  by_contra hc
  simp [ensure_ret, hc] at he

theorem ensure_ret_of_fault (E : Env) (h : Host) (s : Nat) (hf : h.fault (lookup s) ≠ 0) :
    ensure_ret E h s = h.fault (lookup s) := by
  simp [ensure_ret, hf]

theorem sudt_get_balance_error (E : Env) (ctx : gw_context_t) (h : Host) (ev : Event)
    (hev : ev.ret ≠ 0) (s a bal : Nat) (hfa : h.fault (lookup a) = 0)
    (hmem : ev ∈ issued h (sudt_get_balance E ctx s a bal h).2.2) :
    (sudt_get_balance E ctx s a bal h).1 = ev.ret := by
  rw [sudt_get_balance_eq_run] at hmem ⊢
  by_cases z1 : is_zero_hash (h.script_hash a)
  · simp only [get_balance_run, z1, or_true, if_true, issued_after] at hmem
    exact (no_failing_event h [lookup a] ev hev (by simp [hfa]) hmem).elim
  by_cases c3 : ensure_ret E h s = 0
  swap
  · simp only [get_balance_run, hfa, z1, c3, ne_eq, not_true_eq_false, or_self, if_false,
      not_false_eq_true, if_true, issued_after] at hmem ⊢
    by_cases fs : h.fault (lookup s) = 0
    · exact (no_failing_event h [lookup a, lookup s] ev hev (by simp [hfa, fs]) hmem).elim
    · rw [ensure_ret_of_fault E h s fs]
      exact failing_event_last h [lookup a] (lookup s) ev hev (by simp [hfa]) hmem
  have fs := ensure_ret_zero_fault E h s c3
  by_cases c4 : h.fault (.LOAD (E.gw_build_account_key s (balance_key a))) = 0
  · simp only [get_balance_run, hfa, z1, c3, c4, ne_eq, not_true_eq_false, or_self, if_false,
      issued_after] at hmem
    exact (no_failing_event h _ ev hev (by simp [hfa, fs, c4]) hmem).elim
  · simp only [get_balance_run, hfa, z1, c3, c4, ne_eq, not_true_eq_false, or_self, if_false,
      not_false_eq_true, if_true, issued_after] at hmem ⊢
    exact failing_event_last h [lookup a, lookup s] _ ev hev (by simp [hfa, fs]) hmem

theorem sudt_transfer_lookup_error (E : Env) (ctx : gw_context_t) (h : Host) (s a b m : Nat)
    (hab : a ≠ b) (hf : h.fault (lookup a) ≠ 0 ∨ h.fault (lookup b) ≠ 0) :
    (sudt_transfer E ctx s a b m h).1 = ERROR_ACCOUNT_NOT_EXISTS := by
  rw [sudt_transfer_eq_run]
  by_cases c1 : h.fault (lookup a) ≠ 0 ∨ is_zero_hash (h.script_hash a)
  · simp only [transfer_run, if_neg hab, if_pos c1]
  · have c2 : h.fault (lookup b) ≠ 0 ∨ is_zero_hash (h.script_hash b) := by tauto
    simp only [transfer_run, if_neg hab, if_neg c1, if_pos c2]

theorem sudt_transfer_error (E : Env) (ctx : gw_context_t) (h : Host) (ev : Event)
    (hev : ev.ret ≠ 0) (s a b m : Nat) (hfa : h.fault (lookup a) = 0)
    (hfb : h.fault (lookup b) = 0)
    (hmem : ev ∈ issued h (sudt_transfer E ctx s a b m h).2) :
    (sudt_transfer E ctx s a b m h).1 = ev.ret := by
  rw [sudt_transfer_eq_run] at hmem ⊢
  by_cases c0 : a = b
  · simp [transfer_run, c0] at hmem
  by_cases z1 : is_zero_hash (h.script_hash a)
  · simp only [transfer_run, c0, z1, or_true, if_true, if_false, issued_after] at hmem
    exact (no_failing_event h _ ev hev (by simp [hfa]) hmem).elim
  by_cases z2 : is_zero_hash (h.script_hash b)
  · simp only [transfer_run, c0, hfa, z1, z2, ne_eq, not_true_eq_false, or_self, or_true, if_true,
      if_false, issued_after] at hmem
    exact (no_failing_event h _ ev hev (by simp [hfa, hfb]) hmem).elim
  by_cases c3 : ensure_ret E h s = 0
  swap
  · simp only [transfer_run, c0, hfa, hfb, z1, z2, c3, ne_eq, not_true_eq_false, or_self,
      if_false, not_false_eq_true, if_true, issued_after] at hmem ⊢
    by_cases fs : h.fault (lookup s) = 0
    · exact (no_failing_event h _ ev hev (by simp [hfa, hfb, fs]) hmem).elim
    · rw [ensure_ret_of_fault E h s fs]
      exact failing_event_last h [lookup a, lookup b] (lookup s) ev hev (by simp [hfa, hfb]) hmem
  have fs := ensure_ret_zero_fault E h s c3
  by_cases c4 : h.fault (.LOAD (E.gw_build_account_key s (balance_key a))) = 0
  swap
  · simp only [transfer_run, c0, hfa, hfb, z1, z2, c3, c4, ne_eq, not_true_eq_false, or_self,
      if_false, not_false_eq_true, if_true, issued_after] at hmem ⊢
    exact failing_event_last h [lookup a, lookup b, lookup s] _ ev hev
      (by simp [hfa, hfb, fs]) hmem
  by_cases c5 : read_u128 (h.kv (E.gw_build_account_key s (balance_key a))) < m
  · simp only [transfer_run, c0, hfa, hfb, z1, z2, c3, c4, c5, ne_eq, not_true_eq_false, or_self,
      if_false, if_true, issued_after] at hmem
    exact (no_failing_event h _ ev hev (by simp [hfa, hfb, fs, c4]) hmem).elim
  by_cases c6 : h.fault (.LOAD (E.gw_build_account_key s (balance_key b))) = 0
  swap
  · simp only [transfer_run, c0, hfa, hfb, z1, z2, c3, c4, c5, c6, ne_eq, not_true_eq_false,
      or_self, if_false, not_false_eq_true, if_true, issued_after] at hmem ⊢
    exact failing_event_last h [lookup a, lookup b, lookup s, _, lookup s] _ ev hev
      (by simp [hfa, hfb, fs, c4]) hmem
  by_cases c7 : (read_u128 (h.kv (E.gw_build_account_key s (balance_key b))) + m) % u128_size
      < read_u128 (h.kv (E.gw_build_account_key s (balance_key b)))
  · simp only [transfer_run, c0, hfa, hfb, z1, z2, c3, c4, c5, c6, c7, ne_eq, not_true_eq_false,
      or_self, if_false, if_true, issued_after] at hmem
    exact (no_failing_event h _ ev hev (by simp [hfa, hfb, fs, c4, c6]) hmem).elim
  by_cases c8 : h.fault (.STORE (E.gw_build_account_key s (balance_key a))
      (write_u128 zero32 (read_u128 (h.kv (E.gw_build_account_key s (balance_key a))) - m))) = 0
  swap
  · simp only [transfer_run, c0, hfa, hfb, z1, z2, c3, c4, c5, c6, c7, c8, ne_eq,
      not_true_eq_false, or_self, if_false, not_false_eq_true, if_true, issued_after] at hmem ⊢
    exact failing_event_last h [lookup a, lookup b, lookup s, _, lookup s, _, lookup s] _ ev hev
      (by simp [hfa, hfb, fs, c4, c6]) hmem
  by_cases c9 : h.fault (.STORE (E.gw_build_account_key s (balance_key b))
      (write_u128 zero32
        ((read_u128 (h.kv (E.gw_build_account_key s (balance_key b))) + m) % u128_size))) = 0
  swap
  · simp only [transfer_run, c0, hfa, hfb, z1, z2, c3, c4, c5, c6, c7, c8, c9, ne_eq,
      not_true_eq_false, or_self, if_false, not_false_eq_true, if_true, issued_after,
      issued_put] at hmem ⊢
    exact failing_event_last h [lookup a, lookup b, lookup s, _, lookup s, _, lookup s, _,
      lookup s] _ ev hev (by simp [hfa, hfb, fs, c4, c6, c8]) hmem
  simp only [transfer_run, c0, hfa, hfb, z1, z2, c3, c4, c5, c6, c7, c8, c9, ne_eq,
    not_true_eq_false, or_self, if_false, issued_after, issued_put] at hmem ⊢
  exact failing_event_last h [lookup a, lookup b, lookup s, _, lookup s, _, lookup s, _,
    lookup s, _, lookup s] _ ev hev (by simp [hfa, hfb, fs, c4, c6, c8, c9]) hmem

theorem sys_load_error (E : Env) (ctx : gw_context_t) (h : Host) (ev : Event) (hev : ev.ret ≠ 0)
    (account_id : Nat) (key value : Bytes)
    (hmem : ev ∈ issued h (sys_load E (some ctx) account_id key value h).2.2) :
    (sys_load E (some ctx) account_id key value h).1 = ev.ret := by
  rw [sys_load_eq] at hmem ⊢
  rw [← gateway_error_aux E h account_id (.LOAD (E.gw_build_account_key account_id key)) ev hev
    (by split_ifs at hmem ⊢ <;> simpa using hmem)]
  split_ifs <;> simp_all

theorem sys_store_error (E : Env) (ctx : gw_context_t) (h : Host) (ev : Event) (hev : ev.ret ≠ 0)
    (account_id : Nat) (key value : Bytes)
    (hmem : ev ∈ issued h (sys_store E (some ctx) account_id key value h).2) :
    (sys_store E (some ctx) account_id key value h).1 = ev.ret := by
  rw [sys_store_eq] at hmem ⊢
  rw [← gateway_error_aux E h account_id
    (.STORE (E.gw_build_account_key account_id key) value) ev hev
    (by split_ifs at hmem ⊢ <;> simpa using hmem)]
  split_ifs <;> simp_all

theorem sys_load_nonce_error (E : Env) (ctx : gw_context_t) (h : Host) (ev : Event)
    (hev : ev.ret ≠ 0) (account_id : Nat) (value : Bytes)
    (hmem : ev ∈ issued h (sys_load_nonce E (some ctx) account_id value h).2.2) :
    (sys_load_nonce E (some ctx) account_id value h).1 = ev.ret := by
  rw [sys_load_nonce_eq] at hmem ⊢
  rw [← gateway_error_aux E h account_id (.LOAD (E.gw_build_nonce_key account_id)) ev hev
    (by split_ifs at hmem ⊢ <;> simpa using hmem)]
  split_ifs <;> simp_all

theorem sys_log_error (E : Env) (ctx : gw_context_t) (h : Host) (ev : Event) (hev : ev.ret ≠ 0)
    (account_id service_flag data_length : Nat) (data : Bytes)
    (hmem : ev ∈ issued h (sys_log E (some ctx) account_id service_flag data_length data h).2) :
    (sys_log E (some ctx) account_id service_flag data_length data h).1 = ev.ret := by
  rw [sys_log_eq] at hmem ⊢
  rw [← gateway_error_aux E h account_id (.LOG account_id service_flag data_length data) ev hev
    (by split_ifs at hmem ⊢ <;> simpa using hmem)]
  split_ifs <;> simp_all

/-- C6, amended: a non-zero code `ev.ret` the host returns during `sys_load`,
`sys_store`, `sys_load_nonce` or `sys_log` is the code the operation returns.
In `sudt_get_balance` and `sudt_transfer`, a failing script-hash lookup of the
account the ledger itself checks (`account_id`; `from_id` or `to_id`) gives
`ERROR_ACCOUNT_NOT_EXISTS` (15); when those lookups succeed, a non-zero code the
host returns during the operation is the code the operation returns. -/
theorem host_error_propagation (E : Env) (ctx : gw_context_t) (h : Host) (ev : Event)
    (hev : ev.ret ≠ 0) :
    (∀ account_id key value,
      ev ∈ issued h (sys_load E (some ctx) account_id key value h).2.2 →
      (sys_load E (some ctx) account_id key value h).1 = ev.ret) ∧
    (∀ account_id key value,
      ev ∈ issued h (sys_store E (some ctx) account_id key value h).2 →
      (sys_store E (some ctx) account_id key value h).1 = ev.ret) ∧
    (∀ account_id value,
      ev ∈ issued h (sys_load_nonce E (some ctx) account_id value h).2.2 →
      (sys_load_nonce E (some ctx) account_id value h).1 = ev.ret) ∧
    (∀ account_id service_flag data_length data,
      ev ∈ issued h (sys_log E (some ctx) account_id service_flag data_length data h).2 →
      (sys_log E (some ctx) account_id service_flag data_length data h).1 = ev.ret) ∧
    (∀ s a bal,
      (h.fault (lookup a) ≠ 0 →
        (sudt_get_balance E ctx s a bal h).1 = ERROR_ACCOUNT_NOT_EXISTS) ∧
      (h.fault (lookup a) = 0 →
        ev ∈ issued h (sudt_get_balance E ctx s a bal h).2.2 →
        (sudt_get_balance E ctx s a bal h).1 = ev.ret)) ∧
    (∀ s a b m, a ≠ b →
      (h.fault (lookup a) ≠ 0 ∨ h.fault (lookup b) ≠ 0 →
        (sudt_transfer E ctx s a b m h).1 = ERROR_ACCOUNT_NOT_EXISTS) ∧
      (h.fault (lookup a) = 0 → h.fault (lookup b) = 0 →
        ev ∈ issued h (sudt_transfer E ctx s a b m h).2 →
        (sudt_transfer E ctx s a b m h).1 = ev.ret)) := by
  refine ⟨fun id key value hmem => sys_load_error E ctx h ev hev id key value hmem,
    fun id key value hmem => sys_store_error E ctx h ev hev id key value hmem,
    fun id value hmem => sys_load_nonce_error E ctx h ev hev id value hmem,
    fun id flag len data hmem => sys_log_error E ctx h ev hev id flag len data hmem,
    fun s a bal => ⟨fun hf => ?_, fun hf hmem => sudt_get_balance_error E ctx h ev hev s a bal hf hmem⟩,
    fun s a b m hab => ⟨fun hf => sudt_transfer_lookup_error E ctx h s a b m hab hf,
      fun hfa hfb hmem => sudt_transfer_error E ctx h ev hev s a b m hfa hfb hmem⟩⟩
  simp [sudt_get_balance_eq_run, get_balance_run, hf]

/-- C6, amended, on the host whose loads fail with code 9: `sys_load` on account
2 and `sudt_get_balance(5, 2)` and `sudt_transfer(5, 2, 5, 40)` return 9. -/
theorem host_error_propagation_witness :
    (sys_load exampleEnv (some exampleCtx) 2 (balance_key 1) zero32 faultyHost).1 = 9 ∧
    (sudt_get_balance exampleEnv exampleCtx 5 2 0 faultyHost).1 = 9 ∧
    (sudt_transfer exampleEnv exampleCtx 5 2 5 40 faultyHost).1 = 9 :=
  ⟨(host_error_propagation exampleEnv exampleCtx faultyHost
      ⟨.LOAD (exampleEnv.gw_build_account_key 2 (balance_key 1)), 9⟩ (by decide)).1
      2 (balance_key 1) zero32 (by decide),
   ((host_error_propagation exampleEnv exampleCtx faultyHost
      ⟨.LOAD (exampleEnv.gw_build_account_key 5 (balance_key 2)), 9⟩ (by decide)).2.2.2.2.1
      5 2 0).2 (by decide) (by decide),
   ((host_error_propagation exampleEnv exampleCtx faultyHost
      ⟨.LOAD (exampleEnv.gw_build_account_key 5 (balance_key 2)), 9⟩ (by decide)).2.2.2.2.2
      5 2 5 40 (by decide)).2 (by decide) (by decide) (by decide)⟩

/-! ## Context initialisation -/

/-- The transaction half of C9: when the transaction load succeeds and reports a
length above `GW_MAX_L2TX_SIZE`, `gw_context_init` returns
`GW_ERROR_INVALID_DATA`; the decoder is not reached. -/
theorem gw_context_init_transaction_too_long (E : Env) (ctx : gw_context_t) (h : Host)
    (htx : h.fault (.LOAD_TRANSACTION E.GW_MAX_L2TX_SIZE) = 0)
    (hlen : E.GW_MAX_L2TX_SIZE < h.l2transaction.length) :
    gw_context_init E ctx h =
      (E.GW_ERROR_INVALID_DATA, ctx, h.after [.LOAD_TRANSACTION E.GW_MAX_L2TX_SIZE]) := by
  simp [gw_context_init, _sys_load_l2transaction, syscall_len, htx, hlen]

/-- C9 fails for the block info: when the transaction part succeeds and the
block-info load succeeds reporting a length above
`sizeof(MolDefault_BlockInfo)`, `gw_context_init` makes no length check; it
hands the decoder a segment of the reported size, larger than the buffer, and
returns what the decoder returns for it. -/
theorem gw_context_init_block_info_unchecked (E : Env) (ctx : gw_context_t) (h : Host)
    (htx : h.fault (.LOAD_TRANSACTION E.GW_MAX_L2TX_SIZE) = 0)
    (hlen : h.l2transaction.length ≤ E.GW_MAX_L2TX_SIZE)
    (hparse : (E.gw_parse_transaction_context
      ⟨fill (List.replicate E.GW_MAX_L2TX_SIZE 0) h.l2transaction E.GW_MAX_L2TX_SIZE,
        h.l2transaction.length⟩).1 = 0)
    (hbi : h.fault (.LOAD_BLOCKINFO E.sizeof_MolDefault_BlockInfo) = 0)
    (hbig : E.sizeof_MolDefault_BlockInfo < h.block_info.length) :
    (gw_context_init E ctx h).1 =
      (E.gw_parse_block_info
        ⟨fill (List.replicate E.sizeof_MolDefault_BlockInfo 0) h.block_info
            E.sizeof_MolDefault_BlockInfo,
          h.block_info.length⟩).1 ∧
    E.sizeof_MolDefault_BlockInfo <
      (mol_seg_t.mk (fill (List.replicate E.sizeof_MolDefault_BlockInfo 0) h.block_info
        E.sizeof_MolDefault_BlockInfo) h.block_info.length).size := by
  refine ⟨?_, hbig⟩
  have hlen2 : ¬ E.GW_MAX_L2TX_SIZE < h.l2transaction.length := Nat.not_lt.2 hlen
  simp only [gw_context_init, _sys_load_l2transaction, _sys_load_block_info, syscall_len, htx,
    hparse, hbi, hlen2, ne_eq, not_true_eq_false, if_false, gt_iff_lt, Host.emit_fault,
    Host.emit_eq_after, Host.after_fault]
  split_ifs with hq
  · simpa using hq.symm
  · rfl

/-- C9 fails at a concrete input: with a block-info buffer of 4 bytes, a host
reporting a block-info length of 5 and a decoder that accepts the segment,
`gw_context_init` returns 0, not `GW_ERROR_INVALID_DATA` (43). -/
theorem gw_context_init_block_info_unchecked_witness :
    (gw_context_init lenientEnv exampleCtx oversizeHost).1 = 0 ∧
    lenientEnv.sizeof_MolDefault_BlockInfo = 4 ∧ oversizeHost.block_info.length = 5 ∧
    (gw_context_init lenientEnv exampleCtx oversizeHost).2.1.block_info.block_producer_id = 5 :=
  ⟨(gw_context_init_block_info_unchecked lenientEnv exampleCtx oversizeHost (by decide)
      (by decide) (by decide) (by decide) (by decide)).1, by decide, by decide, by decide⟩

/-! ## The write step of the transfer -/

theorem sudt_transfer_of_reaches_write (E : Env) (ctx : gw_context_t) (s a b m : Nat) (h : Host)
    (hp : transfer_reaches_write E s a b m h) :
    sudt_transfer E ctx s a b m h = transfer_write_run E s a b m h := by
  obtain ⟨c0, ⟨f1, z1⟩, ⟨f2, z2⟩, c3, c4, c5, c6, c7⟩ := hp
  rw [sudt_transfer_eq_run]
  simp [transfer_run, transfer_write_run, c0, f1, z1, f2, z2, c3, c4, Nat.not_lt.2 c5, c6, c7]

theorem reaches_write_of_store (E : Env) (ctx : gw_context_t) (s a b m : Nat) (h : Host)
    (hw : ∃ ev ∈ issued h (sudt_transfer E ctx s a b m h).2, ev.call.isStore = true) :
    transfer_reaches_write E s a b m h := by
  obtain ⟨ev, hmem, hst⟩ := hw
  rw [sudt_transfer_eq_run] at hmem
  by_cases c0 : a = b
  · simp [transfer_run, c0] at hmem
  by_cases c1 : h.fault (lookup a) ≠ 0 ∨ is_zero_hash (h.script_hash a)
  · simp [transfer_run, c0, c1] at hmem
    subst hmem
    simp [Syscall.isStore] at hst
  by_cases c2 : h.fault (lookup b) ≠ 0 ∨ is_zero_hash (h.script_hash b)
  · simp [transfer_run, c0, c1, c2] at hmem
    rcases hmem with rfl | rfl <;> simp [Syscall.isStore] at hst
  by_cases c3 : ensure_ret E h s ≠ 0
  · simp [transfer_run, c0, c1, c2, c3] at hmem
    rcases hmem with rfl | rfl | rfl <;> simp [Syscall.isStore] at hst
  by_cases c4 : h.fault (.LOAD (E.gw_build_account_key s (balance_key a))) ≠ 0
  · simp [transfer_run, c0, c1, c2, c3, c4] at hmem
    rcases hmem with rfl | rfl | rfl | rfl <;> simp [Syscall.isStore] at hst
  by_cases c5 : read_u128 (h.kv (E.gw_build_account_key s (balance_key a))) < m
  · simp [transfer_run, c0, c1, c2, c3, c4, c5] at hmem
    rcases hmem with rfl | rfl | rfl | rfl <;> simp [Syscall.isStore] at hst
  by_cases c6 : h.fault (.LOAD (E.gw_build_account_key s (balance_key b))) ≠ 0
  · simp [transfer_run, c0, c1, c2, c3, c4, c5, c6] at hmem
    rcases hmem with rfl | rfl | rfl | rfl | rfl | rfl <;> simp [Syscall.isStore] at hst
  by_cases c7 : (read_u128 (h.kv (E.gw_build_account_key s (balance_key b))) + m) % u128_size
      < read_u128 (h.kv (E.gw_build_account_key s (balance_key b)))
  · simp [transfer_run, c0, c1, c2, c3, c4, c5, c6, c7] at hmem
    rcases hmem with rfl | rfl | rfl | rfl | rfl | rfl <;> simp [Syscall.isStore] at hst
  push_neg at c1 c2 c3 c4 c5 c6
  exact ⟨c0, c1, c2, c3, c4, c5, c6, c7⟩

theorem sudt_get_balance_of_ok (E : Env) (ctx : gw_context_t) (s a bal : Nat) (h : Host)
    (hf : h.fault (lookup a) = 0) (hz : ¬ is_zero_hash (h.script_hash a))
    (he : ensure_ret E h s = 0)
    (hl : h.fault (.LOAD (E.gw_build_account_key s (balance_key a))) = 0) :
    sudt_get_balance E ctx s a bal h =
      (0, read_u128 (h.kv (E.gw_build_account_key s (balance_key a))),
        h.after [lookup a, lookup s, .LOAD (E.gw_build_account_key s (balance_key a))]) := by
  simp [sudt_get_balance_eq_run, get_balance_run, hf, hz, he, hl]

theorem sudt_get_balance_read (E : Env) (ctx : gw_context_t) (s a bal : Nat) (h : Host)
    (hf : h.fault (lookup a) = 0) (hz : ¬ is_zero_hash (h.script_hash a))
    (he : ensure_ret E h s = 0)
    (hl : h.fault (.LOAD (E.gw_build_account_key s (balance_key a))) = 0) :
    (sudt_get_balance E ctx s a bal h).1 = 0 ∧
      (sudt_get_balance E ctx s a bal h).2.1
        = read_u128 (h.kv (E.gw_build_account_key s (balance_key a))) := by
  rw [sudt_get_balance_of_ok E ctx s a bal h hf hz he hl]
  exact ⟨rfl, rfl⟩

theorem ok_of_sudt_get_balance (E : Env) (ctx : gw_context_t) (s a bal : Nat) (h : Host)
    (hread : (sudt_get_balance E ctx s a bal h).1 = 0) :
    h.fault (lookup a) = 0 ∧ ¬ is_zero_hash (h.script_hash a) ∧ ensure_ret E h s = 0 ∧
      h.fault (.LOAD (E.gw_build_account_key s (balance_key a))) = 0 := by
  have hfa : h.fault (lookup a) = 0 := by
    by_contra hc
    simp [sudt_get_balance_eq_run, get_balance_run, hc, ERROR_ACCOUNT_NOT_EXISTS] at hread
  have hz : ¬ is_zero_hash (h.script_hash a) := by
    intro hc
    simp [sudt_get_balance_eq_run, get_balance_run, hc, ERROR_ACCOUNT_NOT_EXISTS] at hread
  have es : ensure_ret E h s = 0 := by
    by_contra hc
    simp [sudt_get_balance_eq_run, get_balance_run, hfa, hz, hc] at hread
  have hl : h.fault (.LOAD (E.gw_build_account_key s (balance_key a))) = 0 := by
    by_contra hc
    simp [sudt_get_balance_eq_run, get_balance_run, hfa, hz, es, hc] at hread
  exact ⟨hfa, hz, es, hl⟩

theorem no_wrap_of_lt (x m : Nat) (hx : x + m < 2 ^ 128) :
    (x + m) % u128_size = x + m ∧ ¬ (x + m) % u128_size < x := by
  have hsz : u128_size = 2 ^ 128 := rfl
  have h1 : (x + m) % u128_size = x + m := Nat.mod_eq_of_lt (by omega)
  exact ⟨h1, by omega⟩

theorem reaches_write_of_balances (E : Env) (ctx : gw_context_t) (s a b m : Nat) (h : Host)
    (hab : a ≠ b)
    (hra : (sudt_get_balance E ctx s a 0 h).1 = 0)
    (hrb : (sudt_get_balance E ctx s b 0 h).1 = 0)
    (hm : m ≤ (sudt_get_balance E ctx s a 0 h).2.1)
    (hov : (sudt_get_balance E ctx s b 0 h).2.1 + m < 2 ^ 128) :
    transfer_reaches_write E s a b m h := by
  obtain ⟨f1, z1, c3, c4⟩ := ok_of_sudt_get_balance E ctx s a 0 h hra
  obtain ⟨f2, z2, _, c6⟩ := ok_of_sudt_get_balance E ctx s b 0 h hrb
  rw [sudt_get_balance_of_ok E ctx s a 0 h f1 z1 c3 c4] at hm
  rw [sudt_get_balance_of_ok E ctx s b 0 h f2 z2 c3 c6] at hov
  exact ⟨hab, ⟨f1, z1⟩, ⟨f2, z2⟩, c3, c4, hm, c6, (no_wrap_of_lt _ m hov).2⟩

theorem balances_of_reaches_write (E : Env) (ctx : gw_context_t) (s a b m : Nat) (h : Host)
    (hp : transfer_reaches_write E s a b m h) :
    (sudt_get_balance E ctx s a 0 h).2.1
        = read_u128 (h.kv (E.gw_build_account_key s (balance_key a))) ∧
      (sudt_get_balance E ctx s b 0 h).2.1
        = read_u128 (h.kv (E.gw_build_account_key s (balance_key b))) ∧
      m ≤ read_u128 (h.kv (E.gw_build_account_key s (balance_key a))) ∧
      read_u128 (h.kv (E.gw_build_account_key s (balance_key b))) + m < 2 ^ 128 ∧
      (read_u128 (h.kv (E.gw_build_account_key s (balance_key b))) + m) % u128_size
        = read_u128 (h.kv (E.gw_build_account_key s (balance_key b))) + m := by
  obtain ⟨c0, ⟨f1, z1⟩, ⟨f2, z2⟩, c3, c4, c5, c6, c7⟩ := hp
  have hsz : u128_size = 2 ^ 128 := rfl
  have hfa := read_u128_lt (h.kv (E.gw_build_account_key s (balance_key a)))
  have hfb := read_u128_lt (h.kv (E.gw_build_account_key s (balance_key b)))
  have hlt : read_u128 (h.kv (E.gw_build_account_key s (balance_key b))) + m < u128_size := by
    have := (wrap_lt_iff _ m hfb (by omega)).not.1 c7
    omega
  rw [sudt_get_balance_of_ok E ctx s a 0 h f1 z1 c3 c4,
    sudt_get_balance_of_ok E ctx s b 0 h f2 z2 c3 c6]
  exact ⟨rfl, rfl, c5, by omega, Nat.mod_eq_of_lt hlt⟩

/-- C11: whenever `sudt_transfer` reaches its write step (it issues a store),
the balance it read for `from` covers the amount and the balance it read for
`to` plus the amount is below `2 ^ 128`. It first stores the encoding of
`fromBalance - amount` under the from key; if that store fails it is the only
store. If it succeeds, the stores are exactly two, the second being the
encoding of `toBalance + amount` under the to key, and the two balances
written, decoded, are `fromBalance - amount` and `toBalance + amount`, whose
sum as natural numbers is `fromBalance + toBalance`. When the transfer returns
0 and the two slots differ, the balances of `from` and `to` read afterwards add
up to the same sum. -/
theorem sudt_transfer_conserves_sum (E : Env) (ctx : gw_context_t) (s a b m : Nat) (h : Host)
    (hw : ∃ ev ∈ issued h (sudt_transfer E ctx s a b m h).2, ev.call.isStore = true) :
    m ≤ (sudt_get_balance E ctx s a 0 h).2.1 ∧
    (sudt_get_balance E ctx s b 0 h).2.1 + m < 2 ^ 128 ∧
    (h.fault (.STORE (E.gw_build_account_key s (balance_key a))
        (write_u128 zero32 ((sudt_get_balance E ctx s a 0 h).2.1 - m))) ≠ 0 →
      ((issued h (sudt_transfer E ctx s a b m h).2).filter (fun ev => ev.call.isStore)).map
          (fun ev => ev.call)
        = [.STORE (E.gw_build_account_key s (balance_key a))
            (write_u128 zero32 ((sudt_get_balance E ctx s a 0 h).2.1 - m))]) ∧
    (h.fault (.STORE (E.gw_build_account_key s (balance_key a))
        (write_u128 zero32 ((sudt_get_balance E ctx s a 0 h).2.1 - m))) = 0 →
      ((issued h (sudt_transfer E ctx s a b m h).2).filter (fun ev => ev.call.isStore)).map
          (fun ev => ev.call)
        = [.STORE (E.gw_build_account_key s (balance_key a))
            (write_u128 zero32 ((sudt_get_balance E ctx s a 0 h).2.1 - m)),
           .STORE (E.gw_build_account_key s (balance_key b))
            (write_u128 zero32 ((sudt_get_balance E ctx s b 0 h).2.1 + m))] ∧
      stored_values (issued h (sudt_transfer E ctx s a b m h).2)
        = [(sudt_get_balance E ctx s a 0 h).2.1 - m, (sudt_get_balance E ctx s b 0 h).2.1 + m] ∧
      (stored_values (issued h (sudt_transfer E ctx s a b m h).2)).sum
        = (sudt_get_balance E ctx s a 0 h).2.1 + (sudt_get_balance E ctx s b 0 h).2.1) ∧
    ((sudt_transfer E ctx s a b m h).1 = 0 →
      E.gw_build_account_key s (balance_key a) ≠ E.gw_build_account_key s (balance_key b) →
      (sudt_get_balance E ctx s a 0 (sudt_transfer E ctx s a b m h).2).1 = 0 ∧
      (sudt_get_balance E ctx s b 0 (sudt_transfer E ctx s a b m h).2).1 = 0 ∧
      (sudt_get_balance E ctx s a 0 (sudt_transfer E ctx s a b m h).2).2.1
          + (sudt_get_balance E ctx s b 0 (sudt_transfer E ctx s a b m h).2).2.1
        = (sudt_get_balance E ctx s a 0 h).2.1 + (sudt_get_balance E ctx s b 0 h).2.1) := by
  have hp := reaches_write_of_store E ctx s a b m h hw
  obtain ⟨ga, gb, hm, hov, hmod⟩ := balances_of_reaches_write E ctx s a b m h hp
  rw [sudt_transfer_of_reaches_write E ctx s a b m h hp, ga, gb]
  obtain ⟨c0, ⟨f1, z1⟩, ⟨f2, z2⟩, c3, c4, c5, c6, c7⟩ := hp
  have hsz : u128_size = 2 ^ 128 := rfl
  have hfa := read_u128_lt (h.kv (E.gw_build_account_key s (balance_key a)))
  have d1 : read_u128 (write_u128 zero32
      (read_u128 (h.kv (E.gw_build_account_key s (balance_key a))) - m))
      = read_u128 (h.kv (E.gw_build_account_key s (balance_key a))) - m := by
    rw [read_u128_write_u128]
    exact Nat.mod_eq_of_lt (by omega)
  have d2 : read_u128 (write_u128 zero32
      (read_u128 (h.kv (E.gw_build_account_key s (balance_key b))) + m))
      = read_u128 (h.kv (E.gw_build_account_key s (balance_key b))) + m := by
    rw [read_u128_write_u128]
    exact Nat.mod_eq_of_lt (by omega)
  refine ⟨hm, hov, fun h8 => ?_, fun h8 => ?_, fun h0 hk => ?_⟩
  · simp only [transfer_write_run, hmod, h8, ne_eq, not_false_eq_true, if_true]
    simp [Syscall.isStore, lookup]
  · by_cases h9 : h.fault (.STORE (E.gw_build_account_key s (balance_key b))
        (write_u128 zero32 (read_u128 (h.kv (E.gw_build_account_key s (balance_key b))) + m))) = 0
    · simp only [transfer_write_run, hmod, h8, h9, ne_eq, not_true_eq_false, if_false]
      refine ⟨?_, ?_, ?_⟩
      · simp [Syscall.isStore, lookup]
      · simp [stored_values, lookup, d1, d2]
      · simp [stored_values, lookup, d1, d2]
        omega
    · simp only [transfer_write_run, hmod, h8, h9, ne_eq, not_true_eq_false, not_false_eq_true,
        if_false, if_true]
      refine ⟨?_, ?_, ?_⟩
      · simp [Syscall.isStore, lookup]
      · simp [stored_values, lookup, d1, d2]
      · simp [stored_values, lookup, d1, d2]
        omega
  · have h8 : h.fault (.STORE (E.gw_build_account_key s (balance_key a))
        (write_u128 zero32 (read_u128 (h.kv (E.gw_build_account_key s (balance_key a))) - m)))
        = 0 := by
      by_contra hc
      simp [transfer_write_run, hc] at h0
    have h9 : h.fault (.STORE (E.gw_build_account_key s (balance_key b))
        (write_u128 zero32 (read_u128 (h.kv (E.gw_build_account_key s (balance_key b))) + m)))
        = 0 := by
      by_contra hc
      simp [transfer_write_run, hmod, h8, hc] at h0
    simp only [transfer_write_run, hmod, h8, h9, ne_eq, not_true_eq_false, if_false]
    have gA := sudt_get_balance_read E ctx s a 0
      (((h.after [lookup a, lookup b, lookup s,
        .LOAD (E.gw_build_account_key s (balance_key a)), lookup s,
        .LOAD (E.gw_build_account_key s (balance_key b)), lookup s,
        .STORE (E.gw_build_account_key s (balance_key a))
          (write_u128 zero32 (read_u128 (h.kv (E.gw_build_account_key s (balance_key a))) - m)),
        lookup s,
        .STORE (E.gw_build_account_key s (balance_key b))
          (write_u128 zero32 (read_u128 (h.kv (E.gw_build_account_key s (balance_key b))) + m)),
        lookup s,
        .LOG s E.GW_LOG_SUDT_OPERATION 25
          ([0] ++ le_bytes 4 a ++ le_bytes 4 b ++ le_bytes 16 m)]).put
        (E.gw_build_account_key s (balance_key a))
        (write_u128 zero32 (read_u128 (h.kv (E.gw_build_account_key s (balance_key a))) - m))).put
        (E.gw_build_account_key s (balance_key b))
        (write_u128 zero32 (read_u128 (h.kv (E.gw_build_account_key s (balance_key b))) + m)))
      (by simpa using f1) (by simpa using z1) (by simpa using c3) (by simpa using c4)
    have gB := sudt_get_balance_read E ctx s b 0
      (((h.after [lookup a, lookup b, lookup s,
        .LOAD (E.gw_build_account_key s (balance_key a)), lookup s,
        .LOAD (E.gw_build_account_key s (balance_key b)), lookup s,
        .STORE (E.gw_build_account_key s (balance_key a))
          (write_u128 zero32 (read_u128 (h.kv (E.gw_build_account_key s (balance_key a))) - m)),
        lookup s,
        .STORE (E.gw_build_account_key s (balance_key b))
          (write_u128 zero32 (read_u128 (h.kv (E.gw_build_account_key s (balance_key b))) + m)),
        lookup s,
        .LOG s E.GW_LOG_SUDT_OPERATION 25
          ([0] ++ le_bytes 4 a ++ le_bytes 4 b ++ le_bytes 16 m)]).put
        (E.gw_build_account_key s (balance_key a))
        (write_u128 zero32 (read_u128 (h.kv (E.gw_build_account_key s (balance_key a))) - m))).put
        (E.gw_build_account_key s (balance_key b))
        (write_u128 zero32 (read_u128 (h.kv (E.gw_build_account_key s (balance_key b))) + m)))
      (by simpa using f2) (by simpa using z2) (by simpa using c3) (by simpa using c6)
    rw [gA.1, gA.2, gB.1, gB.2]
    simp only [Host.put_kv, if_true, if_neg hk, d1, d2]
    refine ⟨trivial, trivial, ?_⟩
    omega

/-- C11 at ledger 5, balances 100 and 0, amount 40: the transfer issues two
stores, the balances written are 60 and 40, their sum is 100, and the balances
read afterwards add up to 100. -/
theorem sudt_transfer_conserves_sum_witness :
    stored_values (issued exampleHost (sudt_transfer exampleEnv exampleCtx 5 1 2 40 exampleHost).2)
      = [60, 40] ∧
    (stored_values
      (issued exampleHost (sudt_transfer exampleEnv exampleCtx 5 1 2 40 exampleHost).2)).sum
      = 100 ∧
    (sudt_get_balance exampleEnv exampleCtx 5 1 0
        (sudt_transfer exampleEnv exampleCtx 5 1 2 40 exampleHost).2).2.1
      + (sudt_get_balance exampleEnv exampleCtx 5 2 0
        (sudt_transfer exampleEnv exampleCtx 5 1 2 40 exampleHost).2).2.1
      = 100 :=
  have w := sudt_transfer_conserves_sum exampleEnv exampleCtx 5 1 2 40 exampleHost
    ⟨⟨.STORE (exampleEnv.gw_build_account_key 5 (balance_key 1)) (write_u128 zero32 60), 0⟩,
      by decide, by decide⟩
  ⟨(w.2.2.2.1 (by decide)).2.1, (w.2.2.2.1 (by decide)).2.2,
    (w.2.2.2.2 (by decide) (by decide)).2.2⟩

/-! ## Key derivation -/

theorem le_bytes_four_injective (a b : Nat) (ha : a < 2 ^ 32) (hb : b < 2 ^ 32)
    (h : le_bytes 4 a = le_bytes 4 b) : a = b := by
  have h1 := congrArg le_value h
  rw [le_value_le_bytes, le_value_le_bytes] at h1
  have e : (256 : Nat) ^ 4 = 2 ^ 32 := by norm_num
  rw [e, Nat.mod_eq_of_lt ha, Nat.mod_eq_of_lt hb] at h1
  exact h1

theorem sudt_transfer_outcomes (E : Env) (ctx : gw_context_t) (s a b m : Nat) (h : Host) :
    sudt_transfer E ctx s a b m h = (ERROR_TO_ID, h) ∨
    sudt_transfer E ctx s a b m h = (ERROR_ACCOUNT_NOT_EXISTS, h.after [lookup a]) ∨
    sudt_transfer E ctx s a b m h = (ERROR_ACCOUNT_NOT_EXISTS, h.after [lookup a, lookup b]) ∨
    sudt_transfer E ctx s a b m h
      = (ensure_ret E h s, h.after [lookup a, lookup b, lookup s]) ∨
    (∃ r, sudt_transfer E ctx s a b m h
      = (r, h.after [lookup a, lookup b, lookup s,
          .LOAD (E.gw_build_account_key s (balance_key a))])) ∨
    (∃ r, sudt_transfer E ctx s a b m h
      = (r, h.after [lookup a, lookup b, lookup s,
          .LOAD (E.gw_build_account_key s (balance_key a)), lookup s,
          .LOAD (E.gw_build_account_key s (balance_key b))])) ∨
    (transfer_reaches_write E s a b m h ∧
      sudt_transfer E ctx s a b m h = transfer_write_run E s a b m h) := by
  by_cases c0 : a = b
  · left
    simp [sudt_transfer_eq_run, transfer_run, c0]
  by_cases c1 : h.fault (lookup a) ≠ 0 ∨ is_zero_hash (h.script_hash a)
  · right; left
    simp [sudt_transfer_eq_run, transfer_run, c0, c1]
  by_cases c2 : h.fault (lookup b) ≠ 0 ∨ is_zero_hash (h.script_hash b)
  · right; right; left
    simp [sudt_transfer_eq_run, transfer_run, c0, c1, c2]
  by_cases c3 : ensure_ret E h s ≠ 0
  · right; right; right; left
    simp [sudt_transfer_eq_run, transfer_run, c0, c1, c2, c3]
  by_cases c4 : h.fault (.LOAD (E.gw_build_account_key s (balance_key a))) ≠ 0
  · right; right; right; right; left
    exact ⟨h.fault (.LOAD (E.gw_build_account_key s (balance_key a))),
      by simp [sudt_transfer_eq_run, transfer_run, c0, c1, c2, c3, c4]⟩
  by_cases c5 : read_u128 (h.kv (E.gw_build_account_key s (balance_key a))) < m
  · right; right; right; right; left
    exact ⟨ERROR_INSUFFICIENT_BALANCE,
      by simp [sudt_transfer_eq_run, transfer_run, c0, c1, c2, c3, c4, c5]⟩
  by_cases c6 : h.fault (.LOAD (E.gw_build_account_key s (balance_key b))) ≠ 0
  · right; right; right; right; right; left
    exact ⟨h.fault (.LOAD (E.gw_build_account_key s (balance_key b))),
      by simp [sudt_transfer_eq_run, transfer_run, c0, c1, c2, c3, c4, c5, c6]⟩
  by_cases c7 : (read_u128 (h.kv (E.gw_build_account_key s (balance_key b))) + m) % u128_size
      < read_u128 (h.kv (E.gw_build_account_key s (balance_key b)))
  · right; right; right; right; right; left
    exact ⟨ERROR_AMOUNT_OVERFLOW,
      by simp [sudt_transfer_eq_run, transfer_run, c0, c1, c2, c3, c4, c5, c6, c7]⟩
  push_neg at c1 c2 c3 c4 c5 c6
  have hp : transfer_reaches_write E s a b m h := ⟨c0, c1, c2, c3, c4, c5, c6, c7⟩
  right; right; right; right; right; right
  exact ⟨hp, sudt_transfer_of_reaches_write E ctx s a b m h hp⟩

theorem sudt_transfer_loads (E : Env) (ctx : gw_context_t) (s a b m : Nat) (h : Host) :
    List.IsPrefix
      (((issued h (sudt_transfer E ctx s a b m h).2).filter (fun ev => ev.call.isLoad)).map
        (fun ev => ev.call))
      [.LOAD (E.gw_build_account_key s (balance_key a)),
       .LOAD (E.gw_build_account_key s (balance_key b))] := by
  rcases sudt_transfer_outcomes E ctx s a b m h with
    e | e | e | e | ⟨r, e⟩ | ⟨r, e⟩ | ⟨_, e⟩ <;> rw [e]
  · simp
  · simp [Syscall.isLoad, lookup]
  · simp [Syscall.isLoad, lookup]
  · simp [Syscall.isLoad, lookup]
  · simp [Syscall.isLoad, lookup]
  · simp [Syscall.isLoad, lookup]
  · simp only [transfer_write_run]
    split_ifs <;> simp [Syscall.isLoad, lookup]

/-- C18: for 32-bit account ids `a ≠ b`, the keys `_sudt_id_to_key` writes into
a zeroed 32-byte buffer are the 4 little-endian bytes of the id followed by 28
zero bytes, 32 bytes long, and they differ; these are the from key and the to
key of `sudt_transfer`, so they differ whenever it gets past its self-transfer
check, and under a key builder that is injective on the logical keys of the
ledger the two holders have different balance slots. -/
theorem sudt_id_to_key_injective (a b : Nat) (ha : a < 2 ^ 32) (hb : b < 2 ^ 32) (hab : a ≠ b) :
    _sudt_id_to_key a zero32 = le_bytes 4 a ++ List.replicate 28 0 ∧
    _sudt_id_to_key b zero32 = le_bytes 4 b ++ List.replicate 28 0 ∧
    (_sudt_id_to_key a zero32).length = 32 ∧
    _sudt_id_to_key a zero32 ≠ _sudt_id_to_key b zero32 ∧
    (∀ (E : Env) (s : Nat),
      (∀ k1 k2, E.gw_build_account_key s k1 = E.gw_build_account_key s k2 → k1 = k2) →
      E.gw_build_account_key s (_sudt_id_to_key a zero32)
        ≠ E.gw_build_account_key s (_sudt_id_to_key b zero32)) ∧
    (∀ (E : Env) (ctx : gw_context_t) (s m : Nat) (h : Host),
      List.IsPrefix
        (((issued h (sudt_transfer E ctx s a b m h).2).filter (fun ev => ev.call.isLoad)).map
          (fun ev => ev.call))
        [.LOAD (E.gw_build_account_key s (_sudt_id_to_key a zero32)),
         .LOAD (E.gw_build_account_key s (_sudt_id_to_key b zero32))]) := by
  have ea : _sudt_id_to_key a zero32 = le_bytes 4 a ++ List.replicate 28 0 := by
    simp [_sudt_id_to_key, zero32]
  have eb : _sudt_id_to_key b zero32 = le_bytes 4 b ++ List.replicate 28 0 := by
    simp [_sudt_id_to_key, zero32]
  have hne : _sudt_id_to_key a zero32 ≠ _sudt_id_to_key b zero32 := by
    rw [ea, eb]
    intro he
    exact hab (le_bytes_four_injective a b ha hb (List.append_cancel_right he))
  refine ⟨ea, eb, ?_, hne, fun E s hinj he => hne (hinj _ _ he), ?_⟩
  · rw [ea]
    simp [le_bytes_length]
  · intro E ctx s m h
    rw [balance_key_eq, balance_key_eq]
    exact sudt_transfer_loads E ctx s a b m h

/-- C18 at holders 1 and 2: the keys are `01 00 00 00` and `02 00 00 00`
followed by 28 zero bytes, and they differ, as do the raw keys the key builder
that rotates the logical key derives from them for ledger 5. -/
theorem sudt_id_to_key_injective_witness :
    _sudt_id_to_key 1 zero32 = [1, 0, 0, 0] ++ List.replicate 28 0 ∧
    _sudt_id_to_key 2 zero32 = [2, 0, 0, 0] ++ List.replicate 28 0 ∧
    _sudt_id_to_key 1 zero32 ≠ _sudt_id_to_key 2 zero32 ∧
    rotEnv.gw_build_account_key 5 (_sudt_id_to_key 1 zero32)
      ≠ rotEnv.gw_build_account_key 5 (_sudt_id_to_key 2 zero32) :=
  have w := sudt_id_to_key_injective 1 2 (by decide) (by decide) (by decide)
  ⟨w.1, w.2.1, w.2.2.2.1, w.2.2.2.2.1 rotEnv 5 (fun _ _ he => List.rotate_injective _ he)⟩

/-- C13: for holders `a ≠ b` whose balances in ledger `s` can be read, with the
balance of `a` covering `m` and no overflow for `b`, the stores `sudt_transfer`
issues are, in order, the new from balance under the from key and then the new
to balance under the to key. If the first store fails, its code is returned,
no second store and no log is issued and the storage is unchanged. If the
first store succeeds and the second fails, its code is returned, no log is
issued, and the storage holds the new from balance under the from key and is
otherwise unchanged: `sudt_get_balance` then reads the debited balance of `a`. -/
theorem sudt_transfer_no_rollback (E : Env) (ctx : gw_context_t) (s a b m : Nat) (h : Host)
    (hab : a ≠ b)
    (hra : (sudt_get_balance E ctx s a 0 h).1 = 0)
    (hrb : (sudt_get_balance E ctx s b 0 h).1 = 0)
    (hm : m ≤ (sudt_get_balance E ctx s a 0 h).2.1)
    (hov : (sudt_get_balance E ctx s b 0 h).2.1 + m < 2 ^ 128) :
    List.IsPrefix
      (((issued h (sudt_transfer E ctx s a b m h).2).filter (fun ev => ev.call.isStore)).map
        (fun ev => ev.call))
      [.STORE (E.gw_build_account_key s (balance_key a))
          (write_u128 zero32 ((sudt_get_balance E ctx s a 0 h).2.1 - m)),
       .STORE (E.gw_build_account_key s (balance_key b))
          (write_u128 zero32 ((sudt_get_balance E ctx s b 0 h).2.1 + m))] ∧
    (h.fault (.STORE (E.gw_build_account_key s (balance_key a))
        (write_u128 zero32 ((sudt_get_balance E ctx s a 0 h).2.1 - m))) ≠ 0 →
      (sudt_transfer E ctx s a b m h).1
        = h.fault (.STORE (E.gw_build_account_key s (balance_key a))
            (write_u128 zero32 ((sudt_get_balance E ctx s a 0 h).2.1 - m))) ∧
      ((issued h (sudt_transfer E ctx s a b m h).2).filter (fun ev => ev.call.isStore)).map
          (fun ev => ev.call)
        = [.STORE (E.gw_build_account_key s (balance_key a))
            (write_u128 zero32 ((sudt_get_balance E ctx s a 0 h).2.1 - m))] ∧
      (∀ ev ∈ issued h (sudt_transfer E ctx s a b m h).2, ev.call.isLog = false) ∧
      (sudt_transfer E ctx s a b m h).2.kv = h.kv) ∧
    (h.fault (.STORE (E.gw_build_account_key s (balance_key a))
        (write_u128 zero32 ((sudt_get_balance E ctx s a 0 h).2.1 - m))) = 0 →
      h.fault (.STORE (E.gw_build_account_key s (balance_key b))
        (write_u128 zero32 ((sudt_get_balance E ctx s b 0 h).2.1 + m))) ≠ 0 →
      (sudt_transfer E ctx s a b m h).1
        = h.fault (.STORE (E.gw_build_account_key s (balance_key b))
            (write_u128 zero32 ((sudt_get_balance E ctx s b 0 h).2.1 + m))) ∧
      ((issued h (sudt_transfer E ctx s a b m h).2).filter (fun ev => ev.call.isStore)).map
          (fun ev => ev.call)
        = [.STORE (E.gw_build_account_key s (balance_key a))
            (write_u128 zero32 ((sudt_get_balance E ctx s a 0 h).2.1 - m)),
           .STORE (E.gw_build_account_key s (balance_key b))
            (write_u128 zero32 ((sudt_get_balance E ctx s b 0 h).2.1 + m))] ∧
      (∀ ev ∈ issued h (sudt_transfer E ctx s a b m h).2, ev.call.isLog = false) ∧
      (∀ k, (sudt_transfer E ctx s a b m h).2.kv k
        = if k = E.gw_build_account_key s (balance_key a)
          then write_u128 zero32 ((sudt_get_balance E ctx s a 0 h).2.1 - m) else h.kv k) ∧
      (sudt_get_balance E ctx s a 0 (sudt_transfer E ctx s a b m h).2).1 = 0 ∧
      (sudt_get_balance E ctx s a 0 (sudt_transfer E ctx s a b m h).2).2.1
        = (sudt_get_balance E ctx s a 0 h).2.1 - m) := by
  have hp := reaches_write_of_balances E ctx s a b m h hab hra hrb hm hov
  obtain ⟨ga, gb, hm2, hov2, hmod⟩ := balances_of_reaches_write E ctx s a b m h hp
  rw [sudt_transfer_of_reaches_write E ctx s a b m h hp, ga, gb]
  obtain ⟨c0, ⟨f1, z1⟩, ⟨f2, z2⟩, c3, c4, c5, c6, c7⟩ := hp
  have hsz : u128_size = 2 ^ 128 := rfl
  have hfa := read_u128_lt (h.kv (E.gw_build_account_key s (balance_key a)))
  refine ⟨?_, fun h8 => ?_, fun h8 h9 => ?_⟩
  · simp only [transfer_write_run, hmod]
    split_ifs <;> simp [Syscall.isStore, lookup]
  · simp only [transfer_write_run, hmod, h8, ne_eq, not_false_eq_true, if_true]
    refine ⟨trivial, ?_, ?_, rfl⟩
    · simp [Syscall.isStore, lookup]
    · simp [Syscall.isLog, lookup]
  · simp only [transfer_write_run, hmod, h8, h9, ne_eq, not_true_eq_false, not_false_eq_true,
      if_true, if_false]
    refine ⟨trivial, ?_, ?_, fun k => ?_, ?_⟩
    · simp [Syscall.isStore, lookup]
    · simp [Syscall.isLog, lookup]
    · simp
    · have hg := sudt_get_balance_read E ctx s a 0
          ((h.after [lookup a, lookup b, lookup s,
            .LOAD (E.gw_build_account_key s (balance_key a)), lookup s,
            .LOAD (E.gw_build_account_key s (balance_key b)), lookup s,
            .STORE (E.gw_build_account_key s (balance_key a))
              (write_u128 zero32
                (read_u128 (h.kv (E.gw_build_account_key s (balance_key a))) - m)),
            lookup s,
            .STORE (E.gw_build_account_key s (balance_key b))
              (write_u128 zero32
                (read_u128 (h.kv (E.gw_build_account_key s (balance_key b))) + m))]).put
            (E.gw_build_account_key s (balance_key a))
            (write_u128 zero32
              (read_u128 (h.kv (E.gw_build_account_key s (balance_key a))) - m)))
          (by simpa using f1) (by simpa using z1) (by simpa using c3) (by simpa using c4)
      rw [hg.1, hg.2]
      simp only [Host.put_kv, if_true, read_u128_write_u128]
      exact ⟨trivial, Nat.mod_eq_of_lt (by omega)⟩

/-- C13 on two hosts, ledger 5, holders 1 and 2, balances 100 and 0, amount 40:
when every store fails with 11 the transfer returns 11 and holder 1 still reads
100; when only the store to holder 2 fails with 11 the transfer returns 11 and
holder 1 reads 60 while holder 2 still reads 0. -/
theorem sudt_transfer_no_rollback_witness :
    ((sudt_transfer exampleEnv exampleCtx 5 1 2 40 readOnlyHost).1 = 11 ∧
      (sudt_transfer exampleEnv exampleCtx 5 1 2 40 readOnlyHost).2.kv = readOnlyHost.kv) ∧
    ((sudt_transfer exampleEnv exampleCtx 5 1 2 40 tornHost).1 = 11 ∧
      (sudt_get_balance exampleEnv exampleCtx 5 1 0
        (sudt_transfer exampleEnv exampleCtx 5 1 2 40 tornHost).2).2.1 = 60 ∧
      (sudt_get_balance exampleEnv exampleCtx 5 2 0
        (sudt_transfer exampleEnv exampleCtx 5 1 2 40 tornHost).2).2.1 = 0) :=
  have w1 := (sudt_transfer_no_rollback exampleEnv exampleCtx 5 1 2 40 readOnlyHost (by decide)
    (by decide) (by decide) (by decide) (by decide)).2.1 (by decide)
  have w2 := (sudt_transfer_no_rollback exampleEnv exampleCtx 5 1 2 40 tornHost (by decide)
    (by decide) (by decide) (by decide) (by decide)).2.2 (by decide) (by decide)
  ⟨⟨w1.1, w1.2.2.2⟩, w2.1, w2.2.2.2.2.2, by decide⟩

/-! ## The stored form of a balance -/

theorem le_bytes_lt (n x : Nat) : ∀ y ∈ le_bytes n x, y < 256 := by
  induction n generalizing x with
  | zero => simp [le_bytes]
  | succ n ih =>
    intro y hy
    simp only [le_bytes, List.mem_cons] at hy
    rcases hy with rfl | hy
    · exact Nat.mod_lt _ (by norm_num)
    · exact ih _ y hy

theorem write_u128_zero32 (x : Nat) :
    write_u128 zero32 x = le_bytes 16 x ++ List.replicate 16 0 := by
  simp [write_u128, zero32]

theorem sudt_transfer_store_values (E : Env) (ctx : gw_context_t) (s a b m : Nat) (h : Host)
    (ev : Event) (hmem : ev ∈ issued h (sudt_transfer E ctx s a b m h).2)
    (k v : Bytes) (hev : ev.call = .STORE k v) :
    ∃ y, y < 2 ^ 128 ∧ v = le_bytes 16 y ++ List.replicate 16 0 := by
  have hsz : u128_size = 2 ^ 128 := rfl
  rcases sudt_transfer_outcomes E ctx s a b m h with
    e | e | e | e | ⟨r, e⟩ | ⟨r, e⟩ | ⟨hp, e⟩ <;> rw [e] at hmem
  · simp at hmem
  · simp at hmem
    subst hmem
    simp [lookup] at hev
  · simp at hmem
    rcases hmem with rfl | rfl <;> simp [lookup] at hev
  · simp at hmem
    rcases hmem with rfl | rfl | rfl <;> simp [lookup] at hev
  · simp at hmem
    rcases hmem with rfl | rfl | rfl | rfl <;> simp [lookup] at hev
  · simp at hmem
    rcases hmem with rfl | rfl | rfl | rfl | rfl | rfl <;> simp [lookup] at hev
  · have hfa := read_u128_lt (h.kv (E.gw_build_account_key s (balance_key a)))
    have hmod := Nat.mod_lt (read_u128 (h.kv (E.gw_build_account_key s (balance_key b))) + m)
      (show 0 < u128_size by omega)
    have hmem2 : ev.call = .STORE (E.gw_build_account_key s (balance_key a))
          (write_u128 zero32 (read_u128 (h.kv (E.gw_build_account_key s (balance_key a))) - m)) ∨
        ev.call = .STORE (E.gw_build_account_key s (balance_key b))
          (write_u128 zero32
            ((read_u128 (h.kv (E.gw_build_account_key s (balance_key b))) + m) % u128_size)) := by
      simp only [transfer_write_run] at hmem
      split_ifs at hmem
      · simp at hmem
        rcases hmem with rfl | rfl | rfl | rfl | rfl | rfl | rfl | rfl <;> simp [lookup] at hev ⊢
      · simp at hmem
        rcases hmem with rfl | rfl | rfl | rfl | rfl | rfl | rfl | rfl | rfl | rfl <;>
          simp [lookup] at hev ⊢
      · simp at hmem
        rcases hmem with rfl | rfl | rfl | rfl | rfl | rfl | rfl | rfl | rfl | rfl | rfl | rfl <;>
          simp [lookup] at hev ⊢
    rcases hmem2 with e2 | e2 <;> rw [e2] at hev <;> injection hev with _ hv <;>
      rw [← hv, write_u128_zero32]
    · exact ⟨_, by omega, rfl⟩
    · exact ⟨_, by omega, rfl⟩

/-- C14: the value `_sudt_set_balance` stores for a 128-bit balance `x` is the
16 little-endian bytes of `x` followed by 16 zero bytes, 32 bytes in all; when
the write succeeds, that value sits under the raw key of the ledger and key, and
`_sudt_get_balance` on the same ledger and key (the load succeeding) returns 0
and `x`. Every value a `sudt_transfer` stores has the same form. -/
theorem sudt_balance_roundtrip (E : Env) (ctx : gw_context_t) (s : Nat) (key : Bytes)
    (x bal : Nat) (h : Host) (hx : x < 2 ^ 128)
    (hset : (_sudt_set_balance E ctx s key x h).1 = 0)
    (hload : h.fault (.LOAD (E.gw_build_account_key s key)) = 0) :
    (write_u128 zero32 x = le_bytes 16 x ++ List.replicate 16 0 ∧
      (write_u128 zero32 x).length = 32 ∧
      (∀ y ∈ write_u128 zero32 x, y < 256) ∧
      (write_u128 zero32 x).drop 16 = List.replicate 16 0) ∧
    issued h (_sudt_set_balance E ctx s key x h).2
      = [⟨lookup s, 0⟩,
         ⟨.STORE (E.gw_build_account_key s key) (le_bytes 16 x ++ List.replicate 16 0), 0⟩] ∧
    (_sudt_set_balance E ctx s key x h).2.kv (E.gw_build_account_key s key)
      = le_bytes 16 x ++ List.replicate 16 0 ∧
    (_sudt_get_balance E ctx s key bal (_sudt_set_balance E ctx s key x h).2).1 = 0 ∧
    (_sudt_get_balance E ctx s key bal (_sudt_set_balance E ctx s key x h).2).2.1 = x ∧
    (∀ (a b m : Nat) (h2 : Host), ∀ ev ∈ issued h2 (sudt_transfer E ctx s a b m h2).2,
      ∀ k v, ev.call = .STORE k v →
        ∃ y, y < 2 ^ 128 ∧ v = le_bytes 16 y ++ List.replicate 16 0) := by
  have hw := write_u128_zero32 x
  have hsz : u128_size = 2 ^ 128 := rfl
  have es : ensure_ret E h s = 0 := by
    by_contra hc
    simp [_sudt_set_balance, sys_store_eq, hc] at hset
  have fs := ensure_ret_zero_fault E h s es
  have hst : h.fault (.STORE (E.gw_build_account_key s key) (write_u128 zero32 x)) = 0 := by
    by_contra hc
    simp [_sudt_set_balance, sys_store_eq, es, hc] at hset
  have hrun : _sudt_set_balance E ctx s key x h =
      (0, (h.after [lookup s, .STORE (E.gw_build_account_key s key) (write_u128 zero32 x)]).put
        (E.gw_build_account_key s key) (write_u128 zero32 x)) := by
    simp [_sudt_set_balance, sys_store_eq, es, hst]
  rw [hrun]
  refine ⟨⟨hw, ?_, ?_, ?_⟩, ?_, ?_, ?_, ?_, ?_⟩
  · rw [hw]
    simp [le_bytes_length]
  · intro y hy
    rw [hw] at hy
    rcases List.mem_append.1 hy with hy | hy
    · exact le_bytes_lt 16 x y hy
    · rw [List.eq_of_mem_replicate hy]
      norm_num
  · rw [hw, List.drop_left' (le_bytes_length 16 x)]
  · rw [← hw]
    simp [fs, hst]
  · rw [← hw]
    simp
  · simp [_sudt_get_balance, sys_load_eq, es, hload]
  · simp only [_sudt_get_balance, sys_load_eq, ensure_ret_put, ensure_ret_after, es,
      Host.put_fault, Host.after_fault, hload, ne_eq, not_true_eq_false, if_false,
      Host.put_kv, if_true, read_u128_write_u128]
    exact Nat.mod_eq_of_lt (by omega)
  · intro a b m h2 ev hmem k v hev
    exact sudt_transfer_store_values E ctx s a b m h2 ev hmem k v hev

/-- C14 at ledger 5, the balance key of holder 1 and the balance 300: the stored
value is `2c 01` followed by 30 zero bytes and reading it back gives 300. -/
theorem sudt_balance_roundtrip_witness :
    write_u128 zero32 300 = [44, 1] ++ List.replicate 30 0 ∧
    (_sudt_get_balance exampleEnv exampleCtx 5 (balance_key 1) 0
      (_sudt_set_balance exampleEnv exampleCtx 5 (balance_key 1) 300 exampleHost).2).2.1 = 300 :=
  have w := sudt_balance_roundtrip exampleEnv exampleCtx 5 (balance_key 1) 300 0 exampleHost
    (by decide) (by decide) (by decide)
  ⟨w.1.1, w.2.2.2.2.1⟩

/-! ## Order of the failure checks -/

/-- C15: the failure checks of `sudt_transfer` decide the result in the order
self-transfer, from exists, to exists, insufficient balance, overflow. A
self-transfer gives `ERROR_TO_ID` (14) whatever the host state, also when the
account does not exist; for distinct ids a missing `from`, or an existing
`from` with a missing `to`, gives `ERROR_ACCOUNT_NOT_EXISTS` (15); for existing
holders with the balance of `from` read and below the amount the result is
`ERROR_INSUFFICIENT_BALANCE` (12), also when the balance of `to` plus the
amount reaches `2 ^ 128`; `ERROR_AMOUNT_OVERFLOW` (13) is the result only once
the balance of `from` covers the amount. -/
theorem sudt_transfer_check_order (E : Env) (ctx : gw_context_t) (s a b m : Nat) (h : Host) :
    (a = b → (sudt_transfer E ctx s a b m h).1 = ERROR_TO_ID) ∧
    (a ≠ b → (h.fault (lookup a) ≠ 0 ∨ is_zero_hash (h.script_hash a)) →
      (sudt_transfer E ctx s a b m h).1 = ERROR_ACCOUNT_NOT_EXISTS) ∧
    (a ≠ b → h.fault (lookup a) = 0 → ¬ is_zero_hash (h.script_hash a) →
      (h.fault (lookup b) ≠ 0 ∨ is_zero_hash (h.script_hash b)) →
      (sudt_transfer E ctx s a b m h).1 = ERROR_ACCOUNT_NOT_EXISTS) ∧
    (a ≠ b → h.fault (lookup b) = 0 → ¬ is_zero_hash (h.script_hash b) →
      (sudt_get_balance E ctx s a 0 h).1 = 0 → (sudt_get_balance E ctx s a 0 h).2.1 < m →
      (sudt_transfer E ctx s a b m h).1 = ERROR_INSUFFICIENT_BALANCE) ∧
    (a ≠ b → (sudt_get_balance E ctx s a 0 h).1 = 0 → (sudt_get_balance E ctx s b 0 h).1 = 0 →
      m ≤ (sudt_get_balance E ctx s a 0 h).2.1 →
      2 ^ 128 ≤ (sudt_get_balance E ctx s b 0 h).2.1 + m →
      (sudt_transfer E ctx s a b m h).1 = ERROR_AMOUNT_OVERFLOW) ∧
    (a ≠ b → h.fault (lookup b) = 0 → ¬ is_zero_hash (h.script_hash b) →
      (sudt_get_balance E ctx s a 0 h).1 = 0 → (sudt_get_balance E ctx s a 0 h).2.1 < m →
      2 ^ 128 ≤ (sudt_get_balance E ctx s b 0 h).2.1 + m →
      (sudt_transfer E ctx s a b m h).1 = ERROR_INSUFFICIENT_BALANCE ∧
      (sudt_transfer E ctx s a b m h).1 ≠ ERROR_AMOUNT_OVERFLOW) ∧
    (a = b → is_zero_hash (h.script_hash a) →
      (sudt_transfer E ctx s a b m h).1 = ERROR_TO_ID ∧
      (sudt_transfer E ctx s a b m h).1 ≠ ERROR_ACCOUNT_NOT_EXISTS) ∧
    (ERROR_TO_ID = 14 ∧ ERROR_ACCOUNT_NOT_EXISTS = 15 ∧ ERROR_INSUFFICIENT_BALANCE = 12 ∧
      ERROR_AMOUNT_OVERFLOW = 13) := by
  have self : a = b → (sudt_transfer E ctx s a b m h).1 = ERROR_TO_ID := by
    intro hab
    simp [sudt_transfer, hab]
  have insuff : a ≠ b → h.fault (lookup b) = 0 → ¬ is_zero_hash (h.script_hash b) →
      (sudt_get_balance E ctx s a 0 h).1 = 0 → (sudt_get_balance E ctx s a 0 h).2.1 < m →
      (sudt_transfer E ctx s a b m h).1 = ERROR_INSUFFICIENT_BALANCE := by
    intro hab f2 z2 hra hlt
    obtain ⟨f1, z1, c3, c4⟩ := ok_of_sudt_get_balance E ctx s a 0 h hra
    rw [sudt_get_balance_of_ok E ctx s a 0 h f1 z1 c3 c4] at hlt
    rw [sudt_transfer_eq_run]
    simp [transfer_run, hab, f1, z1, f2, z2, c3, c4, hlt]
  refine ⟨self, ?_, ?_, insuff, ?_, ?_, ?_, rfl, rfl, rfl, rfl⟩
  · intro hab c1
    rw [sudt_transfer_eq_run]
    simp only [transfer_run, if_neg hab, if_pos c1]
  · intro hab f1 z1 c2
    have c1 : ¬ (h.fault (lookup a) ≠ 0 ∨ is_zero_hash (h.script_hash a)) := by
      push_neg
      exact ⟨f1, z1⟩
    rw [sudt_transfer_eq_run]
    simp only [transfer_run, if_neg hab, if_neg c1, if_pos c2]
  · intro hab hra hrb hm hov
    obtain ⟨f1, z1, c3, c4⟩ := ok_of_sudt_get_balance E ctx s a 0 h hra
    obtain ⟨f2, z2, _, c6⟩ := ok_of_sudt_get_balance E ctx s b 0 h hrb
    rw [sudt_get_balance_of_ok E ctx s a 0 h f1 z1 c3 c4] at hm
    rw [sudt_get_balance_of_ok E ctx s b 0 h f2 z2 c3 c6] at hov
    simp only at hm hov
    have hsz : u128_size = 2 ^ 128 := rfl
    have hfa := read_u128_lt (h.kv (E.gw_build_account_key s (balance_key a)))
    have hfb := read_u128_lt (h.kv (E.gw_build_account_key s (balance_key b)))
    have hwrap := (wrap_lt_iff _ m hfb (by omega)).2 (by simpa [hsz] using hov)
    rw [sudt_transfer_eq_run]
    simp [transfer_run, hab, f1, z1, f2, z2, c3, c4, Nat.not_lt.2 hm, c6, hwrap]
  · intro hab f2 z2 hra hlt _
    rw [insuff hab f2 z2 hra hlt]
    exact ⟨rfl, by decide⟩
  · intro hab _
    rw [self hab]
    exact ⟨rfl, by decide⟩

/-- C15 on the example hosts: with balances 100 and `2 ^ 128 - 1` and amount
200 the result is 12; a self-transfer of the missing account 3 gives 14. -/
theorem sudt_transfer_check_order_witness :
    (sudt_transfer exampleEnv exampleCtx 5 1 2 200 fullHost).1 = 12 ∧
    (sudt_transfer exampleEnv exampleCtx 5 3 3 40 exampleHost).1 = 14 :=
  ⟨((sudt_transfer_check_order exampleEnv exampleCtx 5 1 2 200 fullHost).2.2.2.2.2.1
      (by decide) (by decide) (by decide) (by decide) (by decide) (by decide)).1,
   ((sudt_transfer_check_order exampleEnv exampleCtx 5 3 3 40 exampleHost).2.2.2.2.2.2.1
      rfl (by decide)).1⟩

/-! ## What a successful transfer leaves untouched -/

/-- The code and the balance `sudt_get_balance` gives for a holder depend on the
storage only through the holder's balance slot. -/
theorem sudt_get_balance_congr_slot (E : Env) (ctx : gw_context_t) (s c bal : Nat) (h k : Host)
    (hf : k.fault = h.fault) (hs : k.script_hash = h.script_hash)
    (hkv : k.kv (E.gw_build_account_key s (balance_key c))
      = h.kv (E.gw_build_account_key s (balance_key c))) :
    (sudt_get_balance E ctx s c bal k).1 = (sudt_get_balance E ctx s c bal h).1 ∧
    (sudt_get_balance E ctx s c bal k).2.1 = (sudt_get_balance E ctx s c bal h).2.1 := by
  rw [sudt_get_balance_eq_run, sudt_get_balance_eq_run]
  simp only [get_balance_run, ensure_ret]
  rw [hf, hs, hkv]
  split_ifs <;> exact ⟨rfl, rfl⟩

/-- C16: when `sudt_transfer(s, from, to, m)` returns 0, the stores it issued
are exactly two, to the balance slot of `from` and then to the balance slot of
`to` under ledger `s`; every other raw key of the storage, of this ledger or of
any other account, holds what it held before; so for every account `c` whose
balance slot is neither of the two, `sudt_get_balance(s, c)` gives the same code
and balance before and after, and under a key builder that is injective on the
logical keys of the ledger this is every 32-bit `c` other than `from` and `to`. -/
theorem sudt_transfer_frame (E : Env) (ctx : gw_context_t) (s a b m : Nat) (h : Host)
    (hsucc : (sudt_transfer E ctx s a b m h).1 = 0) :
    ((issued h (sudt_transfer E ctx s a b m h).2).filter (fun ev => ev.call.isStore)).map
        (fun ev => ev.call)
      = [.STORE (E.gw_build_account_key s (balance_key a))
          (write_u128 zero32 ((sudt_get_balance E ctx s a 0 h).2.1 - m)),
         .STORE (E.gw_build_account_key s (balance_key b))
          (write_u128 zero32 ((sudt_get_balance E ctx s b 0 h).2.1 + m))] ∧
    (∀ k, k ≠ E.gw_build_account_key s (balance_key a) →
      k ≠ E.gw_build_account_key s (balance_key b) →
      (sudt_transfer E ctx s a b m h).2.kv k = h.kv k) ∧
    (∀ c bal, E.gw_build_account_key s (balance_key c) ≠ E.gw_build_account_key s (balance_key a) →
      E.gw_build_account_key s (balance_key c) ≠ E.gw_build_account_key s (balance_key b) →
      (sudt_get_balance E ctx s c bal (sudt_transfer E ctx s a b m h).2).1
        = (sudt_get_balance E ctx s c bal h).1 ∧
      (sudt_get_balance E ctx s c bal (sudt_transfer E ctx s a b m h).2).2.1
        = (sudt_get_balance E ctx s c bal h).2.1) ∧
    ((∀ k1 k2, E.gw_build_account_key s k1 = E.gw_build_account_key s k2 → k1 = k2) →
      a < 2 ^ 32 → b < 2 ^ 32 →
      ∀ c bal, c < 2 ^ 32 → c ≠ a → c ≠ b →
        (sudt_get_balance E ctx s c bal (sudt_transfer E ctx s a b m h).2).1
          = (sudt_get_balance E ctx s c bal h).1 ∧
        (sudt_get_balance E ctx s c bal (sudt_transfer E ctx s a b m h).2).2.1
          = (sudt_get_balance E ctx s c bal h).2.1) := by
  obtain ⟨hp, hlog⟩ := passes_of_sudt_transfer_zero E ctx s a b m h hsucc
  have hrun := sudt_transfer_of_passes E ctx s a b m h hp
  obtain ⟨c0, ⟨f1, z1⟩, ⟨f2, z2⟩, c3, c4, c5, c6, c7, c8, c9⟩ := hp
  obtain ⟨ga, gb, _, _, hmod⟩ := balances_of_reaches_write E ctx s a b m h
    ⟨c0, ⟨f1, z1⟩, ⟨f2, z2⟩, c3, c4, c5, c6, c7⟩
  have hkv : ∀ k, k ≠ E.gw_build_account_key s (balance_key a) →
      k ≠ E.gw_build_account_key s (balance_key b) →
      (sudt_transfer E ctx s a b m h).2.kv k = h.kv k := by
    intro k h1 h2
    rw [hrun]
    simp [h1, h2]
  have hfault : (sudt_transfer E ctx s a b m h).2.fault = h.fault := by
    rw [hrun]
    rfl
  have hhash : (sudt_transfer E ctx s a b m h).2.script_hash = h.script_hash := by
    rw [hrun]
    rfl
  have hslot : ∀ c bal,
      E.gw_build_account_key s (balance_key c) ≠ E.gw_build_account_key s (balance_key a) →
      E.gw_build_account_key s (balance_key c) ≠ E.gw_build_account_key s (balance_key b) →
      (sudt_get_balance E ctx s c bal (sudt_transfer E ctx s a b m h).2).1
        = (sudt_get_balance E ctx s c bal h).1 ∧
      (sudt_get_balance E ctx s c bal (sudt_transfer E ctx s a b m h).2).2.1
        = (sudt_get_balance E ctx s c bal h).2.1 := fun c bal h1 h2 =>
    sudt_get_balance_congr_slot E ctx s c bal h _ hfault hhash (hkv _ h1 h2)
  refine ⟨?_, hkv, hslot, ?_⟩
  · rw [hrun, ga, gb, ← hmod]
    simp [transfer_calls, Syscall.isStore, lookup]
  · intro hinj ha hb c bal hc hca hcb
    have key_ne : ∀ x y, x < 2 ^ 32 → y < 2 ^ 32 → x ≠ y →
        E.gw_build_account_key s (balance_key x) ≠ E.gw_build_account_key s (balance_key y) := by
      intro x y hx hy hxy he
      have hk := hinj _ _ he
      rw [balance_key_bytes, balance_key_bytes] at hk
      exact hxy (le_bytes_four_injective x y hx hy (List.append_cancel_right hk))
    exact hslot c bal (key_ne c a hc ha hca) (key_ne c b hc hb hcb)

/-- C16 at ledger 5, holders 1 and 2, amount 40: the balance of the bystander 5
(the ledger's own account) reads 0 before and after the transfer; with the key
builder that rotates the logical key, which is injective on logical keys, the
same holds after a transfer of amount 0. -/
theorem sudt_transfer_frame_witness :
    (sudt_get_balance exampleEnv exampleCtx 5 5 0
      (sudt_transfer exampleEnv exampleCtx 5 1 2 40 exampleHost).2).2.1
      = (sudt_get_balance exampleEnv exampleCtx 5 5 0 exampleHost).2.1 ∧
    (sudt_get_balance exampleEnv exampleCtx 5 5 0 exampleHost).1 = 0 ∧
    (sudt_get_balance exampleEnv exampleCtx 5 5 0 exampleHost).2.1 = 0 ∧
    (sudt_get_balance rotEnv exampleCtx 5 5 0
      (sudt_transfer rotEnv exampleCtx 5 1 2 0 exampleHost).2).2.1
      = (sudt_get_balance rotEnv exampleCtx 5 5 0 exampleHost).2.1 :=
  ⟨((sudt_transfer_frame exampleEnv exampleCtx 5 1 2 40 exampleHost (by decide)).2.2.1 5 0
      (by decide) (by decide)).2, by decide, by decide,
   ((sudt_transfer_frame rotEnv exampleCtx 5 1 2 0 exampleHost (by decide)).2.2.2
      (fun _ _ he => List.rotate_injective _ he) (by decide) (by decide) 5 0 (by decide)
      (by decide) (by decide)).2⟩

/-! ## The two existence checks -/

/-- C17: on the same host state, so with the same result of the script-hash
lookup, `_ensure_account_exists` and `_account_exists` issue the same single
call; `_ensure_account_exists` returns 0 exactly when `_account_exists` returns
0 with `*exists = true`, which is exactly when the lookup succeeds and one of
the 32 bytes is non-zero; when the lookup succeeds, `_ensure_account_exists`
returns `GW_ERROR_ACCOUNT_NOT_FOUND` exactly when `_account_exists` returns 0
with `*exists = false`, which is exactly when the 32 bytes are all zero; when
the lookup fails, both return its code and `*exists` is left as it was.
`GW_ERROR_ACCOUNT_NOT_FOUND` is taken non-zero. -/
theorem existence_checks_agree (E : Env) (account_id : Nat) (ex : Bool) (h : Host)
    (hne : E.GW_ERROR_ACCOUNT_NOT_FOUND ≠ 0) :
    (_ensure_account_exists E account_id h).2 = (_account_exists account_id ex h).2.2 ∧
    (((_ensure_account_exists E account_id h).1 = 0 ↔
        ((_account_exists account_id ex h).1 = 0 ∧ (_account_exists account_id ex h).2.1 = true)) ∧
      ((_ensure_account_exists E account_id h).1 = 0 ↔
        (h.fault (lookup account_id) = 0 ∧ ¬ is_zero_hash (h.script_hash account_id)))) ∧
    (h.fault (lookup account_id) = 0 →
      ((_ensure_account_exists E account_id h).1 = E.GW_ERROR_ACCOUNT_NOT_FOUND ↔
        ((_account_exists account_id ex h).1 = 0 ∧
          (_account_exists account_id ex h).2.1 = false)) ∧
      ((_ensure_account_exists E account_id h).1 = E.GW_ERROR_ACCOUNT_NOT_FOUND ↔
        is_zero_hash (h.script_hash account_id))) ∧
    (h.fault (lookup account_id) ≠ 0 →
      (_ensure_account_exists E account_id h).1 = h.fault (lookup account_id) ∧
      (_account_exists account_id ex h).1 = h.fault (lookup account_id) ∧
      (_account_exists account_id ex h).2.1 = ex) := by
  rw [ensure_account_exists_eq, account_exists_eq]
  by_cases hf : h.fault (lookup account_id) = 0
  · by_cases hz : is_zero_hash (h.script_hash account_id)
    · simp [hf, hz, hne, Ne.symm hne]
    · simp [hf, hz, hne, Ne.symm hne]
  · simp [hf]

/-- C17 on the example host: for the existing account 1 both checks pass, for
the missing account 3 the gateway check gives `GW_ERROR_ACCOUNT_NOT_FOUND` (49
in the example values) and the ledger check gives 0 with `*exists = false`. -/
theorem existence_checks_agree_witness :
    ((_ensure_account_exists exampleEnv 1 exampleHost).1 = 0 ∧
      (_account_exists 1 false exampleHost).1 = 0 ∧
      (_account_exists 1 false exampleHost).2.1 = true) ∧
    ((_ensure_account_exists exampleEnv 3 exampleHost).1 = 49 ∧
      (_account_exists 3 false exampleHost).1 = 0 ∧
      (_account_exists 3 false exampleHost).2.1 = false) :=
  have w1 := (existence_checks_agree exampleEnv 1 false exampleHost (by decide)).2.1
  have w3 := (existence_checks_agree exampleEnv 3 false exampleHost (by decide)).2.2.1
    (by decide)
  ⟨⟨w1.2.2 ⟨by decide, by decide⟩, w1.1.1 (w1.2.2 ⟨by decide, by decide⟩)⟩,
   ⟨w3.2.2 (by decide), w3.1.1 (w3.2.2 (by decide))⟩⟩

end Godwoken
